import Mathlib

/-!
Verification development for the bouncing-ball physics core of the
RXDK demo (file src/src/TR Demo/BallScene.cpp).

The C++ code works on 32-bit floats; here the arithmetic is embedded in
exact rational arithmetic.  The single irrational operation, sqrtf
(wrapped by the source helper SqrtSafe), is modelled by an explicit
square-root oracle parameter of type rat to rat, because exact square
roots are not representable in the rationals.  Theorems that depend on
the value of a square root carry a hypothesis stating that the oracle is
correct (nonnegative and squaring back to its argument) at the points
where the code consults it, which is exactly the behaviour of a real
square root.  All other code is translated statement by statement.
-/

namespace BallScene

/-- Constant GRAVITY from BallScene.cpp (pixels per second squared). -/
def GRAVITY : ℚ := 980

/-- Constant FLOOR_Y from BallScene.cpp. -/
def FLOOR_Y : ℚ := 420

/-- Constant SCREEN_W from BallScene.cpp. -/
def SCREEN_W : ℚ := 640

/-- Constant MAX_BALLS from BallScene.cpp. -/
def MAX_BALLS : ℕ := 16

/-- Constant COLLISION_SLOP from BallScene.cpp (0.5 pixels). -/
def COLLISION_SLOP : ℚ := 1/2

/-- Constant POSITION_CORRECT_PCT from BallScene.cpp (0.60). -/
def POSITION_CORRECT_PCT : ℚ := 3/5

/-- Constant RESTING_VEL_EPS from BallScene.cpp (6.0). -/
def RESTING_VEL_EPS : ℚ := 6

/-- Constant RESTING_DAMP from BallScene.cpp (0.80). -/
def RESTING_DAMP : ℚ := 4/5

/-- Enumeration MaterialType from BallScene.cpp. -/
inductive MaterialType where
  | MAT_RUBBER
  | MAT_CHROME
  | MAT_GLASS
  | MAT_PLASMA
deriving DecidableEq, Repr

open MaterialType

/-- Macro D3DCOLOR_ARGB packing four bytes into a DWORD. -/
def D3DCOLOR_ARGB (a r g b : ℕ) : ℕ := a * 16777216 + r * 65536 + g * 256 + b

/-- Macro D3DCOLOR_XRGB, alpha fixed at 255. -/
def D3DCOLOR_XRGB (r g b : ℕ) : ℕ := D3DCOLOR_ARGB 255 r g b

/-- Struct Ball from BallScene.cpp: position, velocity, radius, mass,
visual deformation state, rotation, material, colour, material physics
properties, glow and the active flag. -/
structure Ball where
  x : ℚ
  y : ℚ
  vx : ℚ
  vy : ℚ
  radius : ℚ
  mass : ℚ
  squashX : ℚ
  squashY : ℚ
  targetSquashX : ℚ
  targetSquashY : ℚ
  rotAngle : ℚ
  material : MaterialType
  baseColor : ℕ
  restitution : ℚ
  friction : ℚ
  glowIntensity : ℚ
  active : Bool
deriving DecidableEq, Repr

/-- Default ball record, used only as the default element for list
indexing (the code never reads a slot outside the active count). -/
def defaultBall : Ball :=
  { x := 0, y := 0, vx := 0, vy := 0, radius := 0, mass := 0,
    squashX := 1, squashY := 1, targetSquashX := 1, targetSquashY := 1,
    rotAngle := 0, material := MAT_RUBBER, baseColor := 0,
    restitution := 0, friction := 0, glowIntensity := 0, active := false }

/-- Helper Clamp from BallScene.cpp. -/
def Clamp (v lo hi : ℚ) : ℚ :=
  if v < lo then lo else if v > hi then hi else v

/-- Helper SqrtSafe from BallScene.cpp; sqrtf is the oracle argument. -/
def sqrtSafe (sq : ℚ → ℚ) (v : ℚ) : ℚ :=
  if v ≤ 0 then 0 else sq v

/-- Function MaterialDensity from BallScene.cpp. -/
def MaterialDensity (mat : MaterialType) : ℚ :=
  match mat with
  | MAT_RUBBER => 1
  | MAT_CHROME => 12/5
  | MAT_GLASS => 8/5
  | MAT_PLASMA => 13/20

/-- Per-material restitution assigned in SpawnBall. -/
def materialRestitution (mat : MaterialType) : ℚ :=
  match mat with
  | MAT_RUBBER => 17/20
  | MAT_CHROME => 11/20
  | MAT_GLASS => 13/20
  | MAT_PLASMA => 4/5

/-- Per-material friction assigned in SpawnBall. -/
def materialFriction (mat : MaterialType) : ℚ :=
  match mat with
  | MAT_RUBBER => 23/25
  | MAT_CHROME => 197/200
  | MAT_GLASS => 97/100
  | MAT_PLASMA => 99/100

/-- Per-material base colour assigned in SpawnBall. -/
def materialBaseColor (mat : MaterialType) : ℕ :=
  match mat with
  | MAT_RUBBER => D3DCOLOR_XRGB 200 50 50
  | MAT_CHROME => D3DCOLOR_XRGB 200 200 220
  | MAT_GLASS => D3DCOLOR_ARGB 128 150 200 255
  | MAT_PLASMA => D3DCOLOR_XRGB 100 255 200

/-- Body of SpawnBall that fills in the fresh ball record: mass is
radius squared times density, floored at 1; squash state starts at the
unit sphere; material physics properties come from the material switch. -/
def mkBall (x y vx vy radius : ℚ) (mat : MaterialType) : Ball :=
  let mass0 := radius * radius * MaterialDensity mat
  { x := x, y := y, vx := vx, vy := vy, radius := radius,
    mass := if mass0 < 1 then 1 else mass0,
    squashX := 1, squashY := 1, targetSquashX := 1, targetSquashY := 1,
    rotAngle := 0, material := mat,
    baseColor := materialBaseColor mat,
    restitution := materialRestitution mat,
    friction := materialFriction mat,
    glowIntensity := 0, active := true }

/-- Function SpawnBall from BallScene.cpp: appends a fresh ball unless
the pool already holds MAX_BALLS bodies, in which case it is a no-op. -/
def spawnBall (bs : List Ball) (x y vx vy radius : ℚ) (mat : MaterialType) : List Ball :=
  if bs.length ≥ MAX_BALLS then bs else bs ++ [mkBall x y vx vy radius mat]

/-- Integration lines of the per-ball loop in UpdatePhysics: gravity is
added to the velocity first, then the position advances using the
already-updated velocity, then the rotation angle advances. -/
def integBall (dt : ℚ) (b : Ball) : Ball :=
  if !b.active then b else
    let b := { b with vy := b.vy + GRAVITY * dt }
    let b := { b with x := b.x + b.vx * dt, y := b.y + b.vy * dt }
    { b with rotAngle := b.rotAngle + b.vx * dt * (1/100) }

/-- Floor clamp in UpdatePhysics: y is set to FLOOR_Y minus radius. -/
def floorClamp (b : Ball) : Ball :=
  { b with y := FLOOR_Y - b.radius }

/-- Floor rebound in UpdatePhysics, before the damping heuristic:
vertical velocity is reflected and scaled by restitution, horizontal
velocity is scaled by friction. -/
def floorBounce (b : Ball) : Ball :=
  { b with vy := -b.vy * b.restitution, vx := b.vx * b.friction }

/-- Snap a vertical velocity of magnitude below 2 to exactly zero. -/
def snapVy (b : Ball) : Ball :=
  if |b.vy| < 2 then { b with vy := 0 } else b

/-- Snap a horizontal velocity of magnitude below 2 to exactly zero. -/
def snapVx (b : Ball) : Ball :=
  if |b.vx| < 2 then { b with vx := 0 } else b

/-- Extra damping when the ball is nearly resting on the floor: both
velocity components are scaled by RESTING_DAMP, then components of
magnitude below 2 are snapped to zero. -/
def floorDamp (preImpact : ℚ) (b : Ball) : Ball :=
  if |preImpact| < 120 ∧ |b.vy| < RESTING_VEL_EPS then
    snapVx (snapVy { b with vy := b.vy * RESTING_DAMP, vx := b.vx * RESTING_DAMP })
  else b

/-- Material squash multiplier applied on floor impact. -/
def squashMultOf (mat : MaterialType) : ℚ :=
  if mat = MAT_RUBBER then 3/2
  else if mat = MAT_GLASS then 3/10
  else if mat = MAT_CHROME then 1/2
  else if mat = MAT_PLASMA then 6/5
  else 1

/-- Squash and glow targets set on floor impact. -/
def floorVisual (preImpact : ℚ) (b : Ball) : Ball :=
  let impactSpeed := |preImpact|
  let baseSquash := Clamp (impactSpeed / 500) 0 (1/2)
  let squashAmount := baseSquash * squashMultOf b.material
  let b := { b with targetSquashX := 1 + squashAmount,
                    targetSquashY := 1 - squashAmount * (7/10) }
  { b with glowIntensity := Clamp (impactSpeed / 300) 0 1 }

/-- Full floor-collision body in UpdatePhysics: clamp to the floor, and
only bounce (with damping and visual feedback) if moving downward. -/
def floorCollide (b : Ball) : Ball :=
  let c := floorClamp b
  if c.vy > 0 then floorVisual c.vy (floorDamp c.vy (floorBounce c)) else c

/-- Floor-collision test in UpdatePhysics. -/
def floorStep (b : Ball) : Ball :=
  if b.y + b.radius > FLOOR_Y then floorCollide b else b

/-- Left-wall collision in UpdatePhysics. -/
def wallLeft (b : Ball) : Ball :=
  if b.x - b.radius < 0 then
    { b with x := b.radius, vx := -b.vx * b.restitution } else b

/-- Right-wall collision in UpdatePhysics. -/
def wallRight (b : Ball) : Ball :=
  if b.x + b.radius > SCREEN_W then
    { b with x := SCREEN_W - b.radius, vx := -b.vx * b.restitution } else b

/-- Wall collisions in UpdatePhysics: clamp to each wall and reflect the
horizontal velocity scaled by restitution. -/
def wallStep (b : Ball) : Ball :=
  wallRight (wallLeft b)

/-- Stretch during flight in UpdatePhysics. -/
def stretchStep (b : Ball) : Ball :=
  if b.y + b.radius < FLOOR_Y - 5 then
    let stretchAmount := Clamp (|b.vy| / 800) 0 (3/10)
    { b with targetSquashX := 1 - stretchAmount * (1/2),
             targetSquashY := 1 + stretchAmount }
  else b

/-- Squash interpolation, squash-target relaxation and glow fade in
UpdatePhysics. -/
def visualStep (b : Ball) : Ball :=
  let b := { b with squashX := b.squashX + (b.targetSquashX - b.squashX) * (1/5),
                    squashY := b.squashY + (b.targetSquashY - b.squashY) * (1/5) }
  let b := { b with targetSquashX := b.targetSquashX + (1 - b.targetSquashX) * (1/10),
                    targetSquashY := b.targetSquashY + (1 - b.targetSquashY) * (1/10) }
  { b with glowIntensity := b.glowIntensity * (19/20) }

/-- Hard stop of very slow balls on the floor in UpdatePhysics. -/
def hardStop (b : Ball) : Ball :=
  if |b.vx| < 5/2 ∧ |b.vy| < 5/2 ∧ b.y + b.radius ≥ FLOOR_Y - 1/2 then
    { b with vx := 0, vy := 0 }
  else b

/-- Boundary-resolution part of the per-ball loop in UpdatePhysics:
floor, walls, flight stretch, squash smoothing, glow fade, hard stop. -/
def boundaryBall (b : Ball) : Ball :=
  if !b.active then b else
    hardStop (visualStep (stretchStep (wallStep (floorStep b))))

/-- One iteration of the fused integrate-plus-boundary loop of
UpdatePhysics for a single ball. -/
def ballStep1 (dt : ℚ) (b : Ball) : Ball :=
  boundaryBall (integBall dt b)

/-- Degenerate-overlap fix in the pairwise resolver: if the distance is
below 0.0001 the delta and distance are replaced by (1, 0) and 1 to
prevent NaN normals. -/
def degenFix (dx dy dist : ℚ) : ℚ × ℚ × ℚ :=
  if dist < 1/10000 then (1, 0, 1) else (dx, dy, dist)

/-- Contact normal and distance used by the pairwise resolver: the delta
from a to b, its safe square root, the degenerate fix, then the division
producing the unit normal.  Returns (nx, ny, dist). -/
def contactGeom (sq : ℚ → ℚ) (a b : Ball) : ℚ × ℚ × ℚ :=
  let dx := b.x - a.x
  let dy := b.y - a.y
  let f := degenFix dx dy (sqrtSafe sq (dx * dx + dy * dy))
  (f.1 / f.2.2, f.2.1 / f.2.2, f.2.2)

/-- Positional correction magnitude in the pairwise resolver: the
overlap beyond COLLISION_SLOP, floored at zero, times
POSITION_CORRECT_PCT. -/
def corrOf (overlap : ℚ) : ℚ :=
  (if overlap - COLLISION_SLOP < 0 then 0 else overlap - COLLISION_SLOP) *
    POSITION_CORRECT_PCT

/-- Inverse-mass sum in the pairwise resolver, with the fallback that
resets a non-positive sum to 1. -/
def invSumOf (a b : Ball) : ℚ :=
  let s := 1 / a.mass + 1 / b.mass
  if s ≤ 0 then 1 else s

/-- Positional correction in the pairwise resolver: both bodies are
pushed apart along the normal, split in proportion to inverse mass. -/
def posCorrect (a b : Ball) (nx ny corr invMa invMb invSum : ℚ) : Ball × Ball :=
  ({ a with x := a.x - nx * (corr * (invMa / invSum)),
            y := a.y - ny * (corr * (invMa / invSum)) },
   { b with x := b.x + nx * (corr * (invMb / invSum)),
            y := b.y + ny * (corr * (invMb / invSum)) })

/-- Application of a scalar impulse along the tangent direction: the
impulse components, scaled by each inverse mass, change only the
velocities. -/
def applyTangentImpulse (a b : Ball) (tx ty jt invMa invMb : ℚ) : Ball × Ball :=
  ({ a with vx := a.vx - jt * tx * invMa, vy := a.vy - jt * ty * invMa },
   { b with vx := b.vx + jt * tx * invMb, vy := b.vy + jt * ty * invMb })

/-- Tangential friction impulse in the pairwise resolver: applied only
when the tangential relative speed exceeds 0.0001, clamped by the normal
impulse magnitude times one minus the combined friction. -/
def frictionImpulse (sq : ℚ → ℚ) (a b : Ball)
    (nx ny rvx rvy velAlongNormal jn invMa invMb invSum : ℚ) : Ball × Ball :=
  let tvx := rvx - velAlongNormal * nx
  let tvy := rvy - velAlongNormal * ny
  let tLen := sqrtSafe sq (tvx * tvx + tvy * tvy)
  if tLen > 1/10000 then
    let tx := tvx / tLen
    let ty := tvy / tLen
    let velAlongT := rvx * tx + rvy * ty
    let mu := a.friction * b.friction
    let jt0 := -velAlongT / invSum
    let maxF := |jn| * (1 - mu)
    let jt1 := if jt0 > maxF then maxF else jt0
    let jt := if jt1 < -maxF then -maxF else jt1
    applyTangentImpulse a b tx ty jt invMa invMb
  else (a, b)

/-- Resting-pair jitter guard at the end of the pairwise resolver: when
both bodies sit in the floor band, every velocity component of magnitude
below 2 is zeroed.  The four source snaps touch disjoint fields, so they
are grouped here per ball. -/
def restingGuard (a b : Ball) : Ball × Ball :=
  if a.y + a.radius ≥ FLOOR_Y - 1/2 ∧ b.y + b.radius ≥ FLOOR_Y - 1/2 then
    (snapVy (snapVx a), snapVy (snapVx b))
  else (a, b)

/-- Application of the normal impulse: the impulse scalar jn along the
normal, scaled by each inverse mass, changes only the velocities. -/
def applyNormalImpulse (a b : Ball) (nx ny jn invMa invMb : ℚ) : Ball × Ball :=
  ({ a with vx := a.vx - jn * nx * invMa, vy := a.vy - jn * ny * invMa },
   { b with vx := b.vx + jn * nx * invMb, vy := b.vy + jn * ny * invMb })

/-- Velocity resolution in the pairwise resolver: skip separating pairs,
apply the normal impulse with restitution the minimum of the two
restitutions, then the tangential friction impulse, then the
resting-pair jitter guard. -/
def resolveVelocity (sq : ℚ → ℚ) (a b : Ball)
    (nx ny invMa invMb invSum : ℚ) : Ball × Ball :=
  let rvx := b.vx - a.vx
  let rvy := b.vy - a.vy
  let velAlongNormal := rvx * nx + rvy * ny
  if velAlongNormal > 0 then (a, b) else
    let e := if a.restitution < b.restitution then a.restitution else b.restitution
    let jn := -(1 + e) * velAlongNormal / invSum
    let q := applyNormalImpulse a b nx ny jn invMa invMb
    let p := frictionImpulse sq q.1 q.2 nx ny rvx rvy velAlongNormal jn invMa invMb invSum
    restingGuard p.1 p.2

/-- One iteration of the ball-to-ball collision loop in UpdatePhysics
for the pair (a, b): overlap test, degenerate-normal fix, positional
correction, impulse resolution. -/
def pairStep (sq : ℚ → ℚ) (a b : Ball) : Ball × Ball :=
  if !a.active || !b.active then (a, b) else
    let dx := b.x - a.x
    let dy := b.y - a.y
    let dist2 := dx * dx + dy * dy
    let minDist := a.radius + b.radius
    if dist2 ≥ minDist * minDist then (a, b) else
      let g := contactGeom sq a b
      let nx := g.1
      let ny := g.2.1
      let dist := g.2.2
      let corr := corrOf (minDist - dist)
      let invMa := 1 / a.mass
      let invMb := 1 / b.mass
      let invSum := invSumOf a b
      let p := posCorrect a b nx ny corr invMa invMb invSum
      resolveVelocity sq p.1 p.2 nx ny invMa invMb invSum

/-- Ordered list of index pairs (i, j) with i strictly below j visited
by the nested ball-to-ball loops of UpdatePhysics. -/
def pairIndices (n : ℕ) : List (ℕ × ℕ) :=
  (List.range n).flatMap fun i =>
    ((List.range n).filter fun j => decide (i < j)).map fun j => (i, j)

/-- One inner iteration of the ball-to-ball loop acting on the pool at
index pair ij: read the two balls, resolve, write both back. -/
def applyPair (sq : ℚ → ℚ) (bs : List Ball) (ij : ℕ × ℕ) : List Ball :=
  let p := pairStep sq (bs.getD ij.1 defaultBall) (bs.getD ij.2 defaultBall)
  (bs.set ij.1 p.1).set ij.2 p.2

/-- Whole ball-to-ball collision phase of UpdatePhysics: fold the pair
resolution over all index pairs in loop order. -/
def pairPhase (sq : ℚ → ℚ) (bs : List Ball) : List Ball :=
  (pairIndices bs.length).foldl (applyPair sq) bs

/-- Function UpdatePhysics from BallScene.cpp: the fused
integrate-plus-boundary loop over every ball, then the ball-to-ball
collision phase. -/
def updatePhysics (sq : ℚ → ℚ) (dt : ℚ) (bs : List Ball) : List Ball :=
  pairPhase sq (bs.map (ballStep1 dt))

/-- Iterated physics steps with a fixed timestep. -/
def stepsN (sq : ℚ → ℚ) (dt : ℚ) (n : ℕ) (bs : List Ball) : List Ball :=
  (updatePhysics sq dt)^[n] bs

/-- Scene operation: either a spawn request or a physics update, the two
operations that modify the pool during a session. -/
inductive SceneOp where
  | spawn (x y vx vy radius : ℚ) (mat : MaterialType)
  | update (dt : ℚ)

/-- Apply one scene operation to the pool. -/
def applySceneOp (sq : ℚ → ℚ) (bs : List Ball) : SceneOp → List Ball
  | SceneOp.spawn x y vx vy radius mat => spawnBall bs x y vx vy radius mat
  | SceneOp.update dt => updatePhysics sq dt bs

/-- Run a sequence of scene operations on the pool. -/
def runSceneOps (sq : ℚ → ℚ) (bs : List Ball) : List SceneOp → List Ball
  | [] => bs
  | op :: ops => runSceneOps sq (applySceneOp sq bs op) ops

/-- Trajectory of pool states produced by a sequence of timesteps: the
state after each successive UpdatePhysics call. -/
def runTrajectory (sq : ℚ → ℚ) (bs : List Ball) : List ℚ → List (List Ball)
  | [] => []
  | dt :: dts =>
    let bs2 := updatePhysics sq dt bs
    bs2 :: runTrajectory sq bs2 dts

/-- Tuple of the per-body fields that the physics step never writes:
radius, mass, material, baseColor, restitution, friction, active. -/
def fixedPart (b : Ball) : ℚ × ℚ × MaterialType × ℕ × ℚ × ℚ × Bool :=
  (b.radius, b.mass, b.material, b.baseColor, b.restitution, b.friction, b.active)

theorem fixedPart_integBall (dt : ℚ) (b : Ball) :
    fixedPart (integBall dt b) = fixedPart b := by
  unfold integBall; split <;> rfl

theorem fixedPart_floorClamp (b : Ball) : fixedPart (floorClamp b) = fixedPart b := rfl

theorem fixedPart_floorBounce (b : Ball) : fixedPart (floorBounce b) = fixedPart b := rfl

theorem fixedPart_snapVx (b : Ball) : fixedPart (snapVx b) = fixedPart b := by
  unfold snapVx; split <;> rfl

theorem fixedPart_snapVy (b : Ball) : fixedPart (snapVy b) = fixedPart b := by
  unfold snapVy; split <;> rfl

theorem fixedPart_floorDamp (pre : ℚ) (b : Ball) :
    fixedPart (floorDamp pre b) = fixedPart b := by
  unfold floorDamp; split
  · rw [fixedPart_snapVx, fixedPart_snapVy]; rfl
  · rfl

theorem fixedPart_floorVisual (pre : ℚ) (b : Ball) :
    fixedPart (floorVisual pre b) = fixedPart b := rfl

theorem fixedPart_floorCollide (b : Ball) :
    fixedPart (floorCollide b) = fixedPart b := by
  unfold floorCollide; dsimp only; split
  · rw [fixedPart_floorVisual, fixedPart_floorDamp, fixedPart_floorBounce,
      fixedPart_floorClamp]
  · rw [fixedPart_floorClamp]

theorem fixedPart_floorStep (b : Ball) : fixedPart (floorStep b) = fixedPart b := by
  unfold floorStep; split
  · rw [fixedPart_floorCollide]
  · rfl

theorem fixedPart_wallLeft (b : Ball) : fixedPart (wallLeft b) = fixedPart b := by
  unfold wallLeft; split <;> rfl

theorem fixedPart_wallRight (b : Ball) : fixedPart (wallRight b) = fixedPart b := by
  unfold wallRight; split <;> rfl

theorem fixedPart_wallStep (b : Ball) : fixedPart (wallStep b) = fixedPart b := by
  unfold wallStep; rw [fixedPart_wallRight, fixedPart_wallLeft]

theorem fixedPart_stretchStep (b : Ball) : fixedPart (stretchStep b) = fixedPart b := by
  unfold stretchStep; split <;> rfl

theorem fixedPart_visualStep (b : Ball) : fixedPart (visualStep b) = fixedPart b := rfl

theorem fixedPart_hardStop (b : Ball) : fixedPart (hardStop b) = fixedPart b := by
  unfold hardStop; split <;> rfl

theorem fixedPart_boundaryBall (b : Ball) : fixedPart (boundaryBall b) = fixedPart b := by
  unfold boundaryBall; split
  · rfl
  · rw [fixedPart_hardStop, fixedPart_visualStep, fixedPart_stretchStep,
      fixedPart_wallStep, fixedPart_floorStep]

theorem fixedPart_ballStep1 (dt : ℚ) (b : Ball) :
    fixedPart (ballStep1 dt b) = fixedPart b := by
  unfold ballStep1; rw [fixedPart_boundaryBall, fixedPart_integBall]

theorem fixedPart_posCorrect (a b : Ball) (nx ny corr invMa invMb invSum : ℚ) :
    fixedPart (posCorrect a b nx ny corr invMa invMb invSum).1 = fixedPart a ∧
    fixedPart (posCorrect a b nx ny corr invMa invMb invSum).2 = fixedPart b :=
  ⟨rfl, rfl⟩

theorem fixedPart_applyTangentImpulse (a b : Ball) (tx ty jt invMa invMb : ℚ) :
    fixedPart (applyTangentImpulse a b tx ty jt invMa invMb).1 = fixedPart a ∧
    fixedPart (applyTangentImpulse a b tx ty jt invMa invMb).2 = fixedPart b :=
  ⟨rfl, rfl⟩

theorem fixedPart_applyNormalImpulse (a b : Ball) (nx ny jn invMa invMb : ℚ) :
    fixedPart (applyNormalImpulse a b nx ny jn invMa invMb).1 = fixedPart a ∧
    fixedPart (applyNormalImpulse a b nx ny jn invMa invMb).2 = fixedPart b :=
  ⟨rfl, rfl⟩

theorem fixedPart_frictionImpulse (sq : ℚ → ℚ) (a b : Ball)
    (nx ny rvx rvy vn jn invMa invMb invSum : ℚ) :
    fixedPart (frictionImpulse sq a b nx ny rvx rvy vn jn invMa invMb invSum).1 = fixedPart a ∧
    fixedPart (frictionImpulse sq a b nx ny rvx rvy vn jn invMa invMb invSum).2 = fixedPart b := by
  unfold frictionImpulse; dsimp only; split
  · exact fixedPart_applyTangentImpulse a b _ _ _ invMa invMb
  · exact ⟨rfl, rfl⟩

theorem fixedPart_restingGuard (a b : Ball) :
    fixedPart (restingGuard a b).1 = fixedPart a ∧
    fixedPart (restingGuard a b).2 = fixedPart b := by
  unfold restingGuard; split
  · exact ⟨by rw [fixedPart_snapVy, fixedPart_snapVx],
      by rw [fixedPart_snapVy, fixedPart_snapVx]⟩
  · exact ⟨rfl, rfl⟩

theorem fixedPart_resolveVelocity (sq : ℚ → ℚ) (a b : Ball)
    (nx ny invMa invMb invSum : ℚ) :
    fixedPart (resolveVelocity sq a b nx ny invMa invMb invSum).1 = fixedPart a ∧
    fixedPart (resolveVelocity sq a b nx ny invMa invMb invSum).2 = fixedPart b := by
  unfold resolveVelocity; dsimp only; split
  · exact ⟨rfl, rfl⟩
  · constructor
    · rw [(fixedPart_restingGuard _ _).1, (fixedPart_frictionImpulse _ _ _ _ _ _ _ _ _ _ _ _).1,
        (fixedPart_applyNormalImpulse _ _ _ _ _ _ _).1]
    · rw [(fixedPart_restingGuard _ _).2, (fixedPart_frictionImpulse _ _ _ _ _ _ _ _ _ _ _ _).2,
        (fixedPart_applyNormalImpulse _ _ _ _ _ _ _).2]

theorem fixedPart_pairStep (sq : ℚ → ℚ) (a b : Ball) :
    fixedPart (pairStep sq a b).1 = fixedPart a ∧
    fixedPart (pairStep sq a b).2 = fixedPart b := by
  unfold pairStep; dsimp only; split
  · exact ⟨rfl, rfl⟩
  · split
    · exact ⟨rfl, rfl⟩
    · constructor
      · rw [(fixedPart_resolveVelocity _ _ _ _ _ _ _ _).1, (fixedPart_posCorrect _ _ _ _ _ _ _ _).1]
      · rw [(fixedPart_resolveVelocity _ _ _ _ _ _ _ _).2, (fixedPart_posCorrect _ _ _ _ _ _ _ _).2]

theorem radius_of_fixedPart {c b : Ball} (h : fixedPart c = fixedPart b) :
    c.radius = b.radius := congrArg (fun t => t.1) h

theorem mass_of_fixedPart {c b : Ball} (h : fixedPart c = fixedPart b) :
    c.mass = b.mass := congrArg (fun t => t.2.1) h

theorem material_of_fixedPart {c b : Ball} (h : fixedPart c = fixedPart b) :
    c.material = b.material := congrArg (fun t => t.2.2.1) h

theorem baseColor_of_fixedPart {c b : Ball} (h : fixedPart c = fixedPart b) :
    c.baseColor = b.baseColor := congrArg (fun t => t.2.2.2.1) h

theorem restitution_of_fixedPart {c b : Ball} (h : fixedPart c = fixedPart b) :
    c.restitution = b.restitution := congrArg (fun t => t.2.2.2.2.1) h

theorem friction_of_fixedPart {c b : Ball} (h : fixedPart c = fixedPart b) :
    c.friction = b.friction := congrArg (fun t => t.2.2.2.2.2.1) h

theorem active_of_fixedPart {c b : Ball} (h : fixedPart c = fixedPart b) :
    c.active = b.active := congrArg (fun t => t.2.2.2.2.2.2) h

theorem y_floorBounce (b : Ball) : (floorBounce b).y = b.y := rfl

theorem y_snapVx (b : Ball) : (snapVx b).y = b.y := by
  unfold snapVx; split <;> rfl

theorem y_snapVy (b : Ball) : (snapVy b).y = b.y := by
  unfold snapVy; split <;> rfl

theorem y_floorDamp (pre : ℚ) (b : Ball) : (floorDamp pre b).y = b.y := by
  unfold floorDamp; split
  · rw [y_snapVx, y_snapVy]
  · rfl

theorem y_floorVisual (pre : ℚ) (b : Ball) : (floorVisual pre b).y = b.y := rfl

theorem y_floorCollide (b : Ball) : (floorCollide b).y = FLOOR_Y - b.radius := by
  unfold floorCollide; dsimp only; split
  · rw [y_floorVisual, y_floorDamp, y_floorBounce]; rfl
  · rfl

theorem y_wallLeft (b : Ball) : (wallLeft b).y = b.y := by
  unfold wallLeft; split <;> rfl

theorem y_wallRight (b : Ball) : (wallRight b).y = b.y := by
  unfold wallRight; split <;> rfl

theorem y_wallStep (b : Ball) : (wallStep b).y = b.y := by
  unfold wallStep; rw [y_wallRight, y_wallLeft]

theorem y_stretchStep (b : Ball) : (stretchStep b).y = b.y := by
  unfold stretchStep; split <;> rfl

theorem y_visualStep (b : Ball) : (visualStep b).y = b.y := rfl

theorem y_hardStop (b : Ball) : (hardStop b).y = b.y := by
  unfold hardStop; split <;> rfl

theorem vx_integBall (dt : ℚ) (b : Ball) : (integBall dt b).vx = b.vx := by
  unfold integBall; split <;> rfl

theorem radius_integBall (dt : ℚ) (b : Ball) : (integBall dt b).radius = b.radius :=
  radius_of_fixedPart (fixedPart_integBall dt b)

theorem active_integBall (dt : ℚ) (b : Ball) : (integBall dt b).active = b.active :=
  active_of_fixedPart (fixedPart_integBall dt b)

theorem applyPair_length (sq : ℚ → ℚ) (bs : List Ball) (ij : ℕ × ℕ) :
    (applyPair sq bs ij).length = bs.length := by
  simp [applyPair]

theorem foldl_applyPair_length (sq : ℚ → ℚ) (l : List (ℕ × ℕ)) (bs : List Ball) :
    (l.foldl (applyPair sq) bs).length = bs.length := by
  induction l generalizing bs with
  | nil => rfl
  | cons ij l ih => rw [List.foldl_cons, ih, applyPair_length]

theorem pairPhase_length (sq : ℚ → ℚ) (bs : List Ball) :
    (pairPhase sq bs).length = bs.length :=
  foldl_applyPair_length sq _ bs

theorem updatePhysics_length (sq : ℚ → ℚ) (dt : ℚ) (bs : List Ball) :
    (updatePhysics sq dt bs).length = bs.length := by
  rw [updatePhysics, pairPhase_length, List.length_map]

theorem getD_set_self (l : List Ball) (i : ℕ) (a d : Ball) (h : i < l.length) :
    (l.set i a).getD i d = a := by
  rw [List.getD_eq_getD_get?, List.get?_set_eq, List.get?_eq_get h]
  rfl

theorem getD_set_ne (l : List Ball) {i j : ℕ} (a d : Ball) (h : i ≠ j) :
    (l.set i a).getD j d = l.getD j d := by
  rw [List.getD_eq_getD_get?, List.getD_eq_getD_get?, List.get?_set_ne _ _ h]

theorem fixedPart_getD_foldl (sq : ℚ → ℚ) (l : List (ℕ × ℕ)) (bs : List Ball) (k : ℕ) :
    fixedPart ((l.foldl (applyPair sq) bs).getD k defaultBall) =
      fixedPart (bs.getD k defaultBall) := by
  induction l generalizing bs with
  | nil => rfl
  | cons ij l ih =>
    rw [List.foldl_cons, ih]
    show fixedPart ((applyPair sq bs ij).getD k defaultBall) = _
    unfold applyPair
    by_cases hk : k < bs.length
    · by_cases hk2 : ij.2 = k
      · subst hk2
        rw [getD_set_self _ _ _ _ (by simpa using hk)]
        exact (fixedPart_pairStep sq _ _).2
      · rw [getD_set_ne _ _ _ hk2]
        by_cases hk1 : ij.1 = k
        · subst hk1
          rw [getD_set_self _ _ _ _ hk]
          exact (fixedPart_pairStep sq _ _).1
        · rw [getD_set_ne _ _ _ hk1]
    · rw [List.getD_eq_default, List.getD_eq_default]
      · exact le_of_not_lt hk
      · simpa using le_of_not_lt hk

theorem fixedPart_updatePhysics (sq : ℚ → ℚ) (dt : ℚ) (bs : List Ball) (k : ℕ) :
    fixedPart ((updatePhysics sq dt bs).getD k defaultBall) =
      fixedPart (bs.getD k defaultBall) := by
  rw [updatePhysics, pairPhase, fixedPart_getD_foldl]
  by_cases hk : k < bs.length
  · rw [List.getD_eq_getElem _ _ (by simpa using hk), List.getD_eq_getElem _ _ hk,
      List.getElem_map]
    exact fixedPart_ballStep1 dt _
  · rw [List.getD_eq_default, List.getD_eq_default]
    · exact le_of_not_lt hk
    · simpa using le_of_not_lt hk

/-- Integrator stage of the staged pipeline described by the spec,
applied to every body of the pool. -/
def integratorStage (dt : ℚ) (bs : List Ball) : List Ball := bs.map (integBall dt)

/-- Boundary Resolver stage of the staged pipeline described by the
spec, applied to every body of the pool. -/
def boundaryStage (bs : List Ball) : List Ball := bs.map boundaryBall

/-- Staged per-frame pipeline as the spec words it: the Integrator
applied to every body, then the Boundary Resolver applied to every body,
then the Pairwise Collision Resolver. -/
def stagedUpdate (sq : ℚ → ℚ) (dt : ℚ) (bs : List Ball) : List Ball :=
  pairPhase sq (boundaryStage (integratorStage dt bs))

/-- C8: the implemented per-frame update, which integrates and
boundary-resolves each body inside one fused loop and then runs the
pairwise resolver, equals the staged pipeline of the spec (Integrator
over every body, then Boundary Resolver over every body, then Pairwise
Collision Resolver), for every initial pool state and timestep, because
integration and boundary resolution read and write only the fields of
the body they act on. -/
theorem updatePhysics_eq_staged (sq : ℚ → ℚ) (dt : ℚ) (bs : List Ball) :
    updatePhysics sq dt bs = stagedUpdate sq dt bs := by
  unfold updatePhysics stagedUpdate boundaryStage integratorStage ballStep1
  rw [List.map_map]
  rfl

/-- C7: the physics step is deterministic.  The step is a pure function
of the pool, the timestep and the square-root oracle, so two runs from
equal pools along the same timestep sequence produce equal trajectories;
and the pair loop visits exactly the index pairs (i, j) with i below j
below the count, in the fixed order generated from insertion order. -/
theorem physics_deterministic :
    (∀ (sq : ℚ → ℚ) (dts : List ℚ) (p1 p2 : List Ball), p1 = p2 →
      runTrajectory sq p1 dts = runTrajectory sq p2 dts) ∧
    (∀ n i j : ℕ, (i, j) ∈ pairIndices n ↔ i < j ∧ j < n) := by
  constructor
  · intro sq dts p1 p2 h
    rw [h]
  · intro n i j
    simp only [pairIndices, List.mem_flatMap, List.mem_map, List.mem_filter,
      List.mem_range, decide_eq_true_eq, Prod.mk.injEq]
    constructor
    · rintro ⟨a, ha, b, ⟨hb, hab⟩, rfl, rfl⟩
      exact ⟨hab, hb⟩
    · rintro ⟨hij, hjn⟩
      exact ⟨i, lt_trans hij hjn, j, ⟨⟨hjn, hij⟩, rfl, rfl⟩⟩

/-- Witness for the determinism theorem at a concrete pool and timestep
sequence. -/
theorem physics_deterministic_witness :
    runTrajectory (fun _ => 0) [defaultBall] [1/60] =
      runTrajectory (fun _ => 0) [defaultBall] [1/60] ∧
    ((0, 1) ∈ pairIndices 2 ↔ 0 < 1 ∧ 1 < 2) :=
  ⟨physics_deterministic.1 (fun _ => 0) [1/60] [defaultBall] [defaultBall] rfl,
   physics_deterministic.2 2 0 1⟩

theorem spawnBall_length_le (bs : List Ball) (x y vx vy r : ℚ) (mat : MaterialType)
    (h : bs.length ≤ MAX_BALLS) :
    (spawnBall bs x y vx vy r mat).length ≤ MAX_BALLS := by
  unfold spawnBall; split
  · exact h
  · rename_i hlt
    rw [List.length_append, List.length_singleton]
    exact Nat.succ_le_of_lt (Nat.lt_of_not_le hlt)

/-- C4: the pool count never exceeds MAX_BALLS = 16 under any sequence
of spawn and update operations, and a spawn at full capacity returns the
pool unchanged (no count change, no ball modified). -/
theorem pool_capacity :
    (∀ (sq : ℚ → ℚ) (ops : List SceneOp) (bs : List Ball),
      bs.length ≤ MAX_BALLS → (runSceneOps sq bs ops).length ≤ MAX_BALLS) ∧
    (∀ (bs : List Ball) (x y vx vy r : ℚ) (mat : MaterialType),
      bs.length = MAX_BALLS → spawnBall bs x y vx vy r mat = bs) := by
  constructor
  · intro sq ops
    induction ops with
    | nil => intro bs h; exact h
    | cons op ops ih =>
      intro bs h
      show (runSceneOps sq (applySceneOp sq bs op) ops).length ≤ MAX_BALLS
      cases op with
      | spawn x y vx vy r mat => exact ih _ (spawnBall_length_le _ _ _ _ _ _ _ h)
      | update dt =>
        exact ih _ (by
          show (updatePhysics sq dt bs).length ≤ MAX_BALLS
          rw [updatePhysics_length]; exact h)
  · intro bs x y vx vy r mat h
    unfold spawnBall
    rw [if_pos (le_of_eq h.symm)]

/-- Full pool used to witness the capacity theorem. -/
def poolFull : List Ball := List.replicate 16 defaultBall

/-- Witness for the capacity theorem at a concrete full pool. -/
theorem pool_capacity_witness :
    (runSceneOps (fun _ => 0) poolFull
        [SceneOp.spawn 0 0 0 0 1 MAT_RUBBER]).length ≤ MAX_BALLS ∧
    spawnBall poolFull 0 0 0 0 1 MAT_RUBBER = poolFull :=
  ⟨pool_capacity.1 (fun _ => 0) [SceneOp.spawn 0 0 0 0 1 MAT_RUBBER] poolFull (by decide),
   pool_capacity.2 poolFull 0 0 0 0 1 MAT_RUBBER (by decide)⟩

/-- C9: no division in the pairwise resolver divides by zero.  Spawned
balls have mass at least 1, so the inverse-mass sum is positive and the
fallback resetting a non-positive sum to 1 is unreachable; the contact
divisor is replaced by 1 with normal (1, 0) whenever the distance falls
below 0.0001 and is positive otherwise; and the tangential stage is the
identity (no division by tLen) whenever tLen is at most 0.0001. -/
theorem division_guards :
    (∀ (x y vx vy r : ℚ) (mat : MaterialType), 1 ≤ (mkBall x y vx vy r mat).mass) ∧
    (∀ a b : Ball, 1 ≤ a.mass → 1 ≤ b.mass →
      invSumOf a b = 1 / a.mass + 1 / b.mass ∧ 0 < invSumOf a b) ∧
    (∀ dx dy d : ℚ, 0 ≤ d →
      0 < (degenFix dx dy d).2.2 ∧ (d < 1/10000 → degenFix dx dy d = (1, 0, 1))) ∧
    (∀ (sq : ℚ → ℚ) (a b : Ball) (nx ny rvx rvy vn jn invMa invMb invSum : ℚ),
      sqrtSafe sq ((rvx - vn * nx) * (rvx - vn * nx) +
          (rvy - vn * ny) * (rvy - vn * ny)) ≤ 1/10000 →
      frictionImpulse sq a b nx ny rvx rvy vn jn invMa invMb invSum = (a, b)) := by
  refine ⟨?_, ?_, ?_, ?_⟩
  · intro x y vx vy r mat
    unfold mkBall; dsimp only
    split
    · exact le_refl 1
    · rename_i h; exact le_of_not_lt h
  · intro a b ha hb
    have hma : 0 < a.mass := lt_of_lt_of_le one_pos ha
    have hmb : 0 < b.mass := lt_of_lt_of_le one_pos hb
    have h1 : 0 < 1 / a.mass + 1 / b.mass := by positivity
    have he : invSumOf a b = 1 / a.mass + 1 / b.mass := by
      unfold invSumOf; dsimp only
      rw [if_neg (not_le.mpr h1)]
    exact ⟨he, he ▸ h1⟩
  · intro dx dy d hd
    unfold degenFix; split
    · exact ⟨one_pos, fun _ => rfl⟩
    · rename_i h
      exact ⟨lt_of_lt_of_le (by norm_num) (le_of_not_lt h), fun hlt => absurd hlt h⟩
  · intro sq a b nx ny rvx rvy vn jn invMa invMb invSum h
    unfold frictionImpulse; dsimp only
    rw [if_neg (not_lt.mpr h)]

/-- Rubber ball used by several witnesses (mass 900, at least 1). -/
def rubberBall : Ball := mkBall 100 50 0 0 30 MAT_RUBBER

/-- Witness for the division-guard theorem at concrete inputs. -/
theorem division_guards_witness :
    1 ≤ (mkBall 0 0 0 0 3 MAT_RUBBER).mass ∧
    (invSumOf rubberBall rubberBall =
        1 / rubberBall.mass + 1 / rubberBall.mass ∧
      0 < invSumOf rubberBall rubberBall) ∧
    (0 < (degenFix 3 4 (1/20000)).2.2 ∧
      ((1/20000 : ℚ) < 1/10000 → degenFix 3 4 (1/20000) = (1, 0, 1))) ∧
    frictionImpulse (fun _ => 0) rubberBall rubberBall 1 0 0 0 0 0 0 0 1 =
      (rubberBall, rubberBall) :=
  ⟨division_guards.1 0 0 0 0 3 MAT_RUBBER,
   division_guards.2.1 rubberBall rubberBall
     (by norm_num [rubberBall, mkBall, MaterialDensity])
     (by norm_num [rubberBall, mkBall, MaterialDensity]),
   division_guards.2.2.1 3 4 (1/20000) (by norm_num),
   division_guards.2.2.2 (fun _ => 0) rubberBall rubberBall 1 0 0 0 0 0 0 0 1
     (by norm_num [sqrtSafe])⟩

theorem x_stretchStep (b : Ball) : (stretchStep b).x = b.x := by
  unfold stretchStep; split <;> rfl

theorem vx_stretchStep (b : Ball) : (stretchStep b).vx = b.vx := by
  unfold stretchStep; split <;> rfl

theorem vy_stretchStep (b : Ball) : (stretchStep b).vy = b.vy := by
  unfold stretchStep; split <;> rfl

theorem radius_stretchStep (b : Ball) : (stretchStep b).radius = b.radius :=
  radius_of_fixedPart (fixedPart_stretchStep b)

theorem active_stretchStep (b : Ball) : (stretchStep b).active = b.active :=
  active_of_fixedPart (fixedPart_stretchStep b)

theorem x_visualStep (b : Ball) : (visualStep b).x = b.x := rfl

theorem vx_visualStep (b : Ball) : (visualStep b).vx = b.vx := rfl

theorem vy_visualStep (b : Ball) : (visualStep b).vy = b.vy := rfl

theorem radius_visualStep (b : Ball) : (visualStep b).radius = b.radius :=
  radius_of_fixedPart (fixedPart_visualStep b)

theorem active_visualStep (b : Ball) : (visualStep b).active = b.active :=
  active_of_fixedPart (fixedPart_visualStep b)

theorem x_hardStop (b : Ball) : (hardStop b).x = b.x := by
  unfold hardStop; split <;> rfl

theorem active_hardStop (b : Ball) : (hardStop b).active = b.active :=
  active_of_fixedPart (fixedPart_hardStop b)

/-- Explicit record form of the integration lines for an active ball:
gravity first, then position from the already-updated velocity. -/
theorem integBall_eq (dt : ℚ) (c : Ball) (hact : c.active = true) :
    integBall dt c =
      { c with
        vy := c.vy + GRAVITY * dt,
        x := c.x + c.vx * dt,
        y := c.y + (c.vy + GRAVITY * dt) * dt,
        rotAngle := c.rotAngle + c.vx * dt * (1/100) } := by
  unfold integBall
  rw [hact]
  rfl

/-- Contact-free condition for one step: after integration the ball
overlaps neither the floor band nor a wall, and the hard-stop test does
not fire.  The expressions are the post-integration position and
velocity of the ball. -/
def freeOfContact (dt : ℚ) (b : Ball) : Prop :=
  ¬(b.y + (b.vy + GRAVITY * dt) * dt + b.radius > FLOOR_Y) ∧
  ¬(b.x + b.vx * dt - b.radius < 0) ∧
  ¬(b.x + b.vx * dt + b.radius > SCREEN_W) ∧
  ¬(|b.vx| < 5/2 ∧ |b.vy + GRAVITY * dt| < 5/2 ∧
    b.y + (b.vy + GRAVITY * dt) * dt + b.radius ≥ FLOOR_Y - 1/2)

instance (dt : ℚ) (b : Ball) : Decidable (freeOfContact dt b) := by
  unfold freeOfContact; infer_instance

/-- A contact-free step is exactly semi-implicit Euler integration on
position and velocity: gravity is added to the vertical velocity first
and the position then advances with the updated velocity. -/
theorem ballStep1_free (dt : ℚ) (c : Ball) (hact : c.active = true)
    (hfree : freeOfContact dt c) :
    (ballStep1 dt c).vy = c.vy + GRAVITY * dt ∧
    (ballStep1 dt c).vx = c.vx ∧
    (ballStep1 dt c).x = c.x + c.vx * dt ∧
    (ballStep1 dt c).y = c.y + (c.vy + GRAVITY * dt) * dt ∧
    (ballStep1 dt c).active = true := by
  unfold freeOfContact at hfree
  obtain ⟨hf, hwl, hwr, hstop⟩ := hfree
  have hd := integBall_eq dt c hact
  have hy : (integBall dt c).y = c.y + (c.vy + GRAVITY * dt) * dt := by rw [hd]
  have hx : (integBall dt c).x = c.x + c.vx * dt := by rw [hd]
  have hvxi : (integBall dt c).vx = c.vx := vx_integBall dt c
  have hvyi : (integBall dt c).vy = c.vy + GRAVITY * dt := by rw [hd]
  have hri : (integBall dt c).radius = c.radius := radius_integBall dt c
  have hai : (integBall dt c).active = true := by rw [active_integBall]; exact hact
  have hfs : floorStep (integBall dt c) = integBall dt c := by
    unfold floorStep
    simp only [hy, hri]
    rw [if_neg hf]
  have hwl2 : wallLeft (integBall dt c) = integBall dt c := by
    unfold wallLeft
    simp only [hx, hri]
    rw [if_neg hwl]
  have hwr2 : wallRight (integBall dt c) = integBall dt c := by
    unfold wallRight
    simp only [hx, hri]
    rw [if_neg hwr]
  have hws : wallStep (integBall dt c) = integBall dt c := by
    unfold wallStep
    rw [hwl2, hwr2]
  have hhs : hardStop (visualStep (stretchStep (integBall dt c))) =
      visualStep (stretchStep (integBall dt c)) := by
    unfold hardStop
    simp only [vx_visualStep, vx_stretchStep, vy_visualStep, vy_stretchStep,
      y_visualStep, y_stretchStep, radius_visualStep, radius_stretchStep,
      hvxi, hvyi, hy, hri]
    rw [if_neg hstop]
  unfold ballStep1 boundaryBall
  rw [hai]
  simp only [Bool.not_true]
  rw [if_neg (by decide : ¬((false : Bool) = true))]
  rw [hfs, hws, hhs]
  refine ⟨?_, ?_, ?_, ?_, ?_⟩
  · rw [vy_visualStep, vy_stretchStep, hvyi]
  · rw [vx_visualStep, vx_stretchStep, hvxi]
  · rw [x_visualStep, x_stretchStep, hx]
  · rw [y_visualStep, y_stretchStep, hy]
  · rw [active_visualStep, active_stretchStep, hai]

theorem updatePhysics_singleton (sq : ℚ → ℚ) (dt : ℚ) (c : Ball) :
    updatePhysics sq dt [c] = [ballStep1 dt c] := rfl

theorem stepsN_singleton (sq : ℚ → ℚ) (dt : ℚ) (n : ℕ) (c : Ball) :
    stepsN sq dt n [c] = [(ballStep1 dt)^[n] c] := by
  induction n with
  | zero => rfl
  | succ n ih =>
    unfold stepsN at ih ⊢
    rw [Function.iterate_succ_apply', ih, updatePhysics_singleton]
    rw [Function.iterate_succ_apply']

theorem ballStep1_iter_free (dt : ℚ) (n : ℕ) (b : Ball) (hact : b.active = true)
    (hfree : ∀ k < n, freeOfContact dt ((ballStep1 dt)^[k] b)) :
    ((ballStep1 dt)^[n] b).vy = b.vy + GRAVITY * n * dt ∧
    ((ballStep1 dt)^[n] b).active = true := by
  induction n with
  | zero =>
    constructor
    · simp
    · exact hact
  | succ n ih =>
    obtain ⟨hvy, hac⟩ := ih fun k hk => hfree k (Nat.lt_succ_of_lt hk)
    have hstep := ballStep1_free dt _ hac (hfree n (Nat.lt_succ_self n))
    rw [Function.iterate_succ_apply']
    constructor
    · rw [hstep.1, hvy]
      push_cast
      ring
    · exact hstep.2.2.2.2

/-- C5: a body with zero initial velocity that stays free of the floor,
the walls and the hard-stop band accumulates vertical velocity GRAVITY
times n times dt after n physics steps, and each contact-free step is
semi-implicit Euler: gravity is added to the velocity first and the
position then advances with the already-updated velocity. -/
theorem free_fall (sq : ℚ → ℚ) (dt : ℚ) (n : ℕ) (b : Ball)
    (hact : b.active = true) (hvx : b.vx = 0) (hvy : b.vy = 0)
    (hfree : ∀ k < n, freeOfContact dt ((ballStep1 dt)^[k] b)) :
    stepsN sq dt n [b] = [(ballStep1 dt)^[n] b] ∧
    ((ballStep1 dt)^[n] b).vy = GRAVITY * n * dt ∧
    (∀ c : Ball, c.active = true → freeOfContact dt c →
      (ballStep1 dt c).vy = c.vy + GRAVITY * dt ∧
      (ballStep1 dt c).x = c.x + c.vx * dt ∧
      (ballStep1 dt c).y = c.y + (c.vy + GRAVITY * dt) * dt) := by
  refine ⟨stepsN_singleton sq dt n b, ?_, ?_⟩
  · have h := (ballStep1_iter_free dt n b hact hfree).1
    rw [h, hvy, zero_add]
  · intro c hc hf
    have h := ballStep1_free dt c hc hf
    exact ⟨h.1, h.2.2.1, h.2.2.2.1⟩

/-- Ball dropped from rest high above the floor, used by the free-fall
witness. -/
def dropBall : Ball :=
  { defaultBall with
    x := 300, y := 50, vx := 0, vy := 0, radius := 30,
    mass := 900, restitution := 17/20, friction := 23/25, active := true }

/-- The dropped ball stays contact-free for the first two steps. -/
theorem dropBall_free : ∀ k < 2, freeOfContact (1/60) ((ballStep1 (1/60))^[k] dropBall) := by
  intro k hk
  have h0 : freeOfContact (1/60) dropBall := by
    norm_num [freeOfContact, dropBall, defaultBall, GRAVITY, FLOOR_Y, SCREEN_W]
  rcases k with _ | _ | k
  · simpa only [Function.iterate_zero_apply] using h0
  · rw [Function.iterate_one]
    have hs := ballStep1_free (1/60) dropBall rfl h0
    have hr : (ballStep1 (1/60) dropBall).radius = dropBall.radius :=
      radius_of_fixedPart (fixedPart_ballStep1 _ _)
    unfold freeOfContact
    rw [hs.1, hs.2.1, hs.2.2.1, hs.2.2.2.1, hr]
    norm_num [dropBall, defaultBall, GRAVITY, FLOOR_Y, SCREEN_W]
  · exact absurd hk (by omega)

/-- Witness for the free-fall theorem: two steps at dt = 1/60. -/
theorem free_fall_witness :
    (∀ k < 2, freeOfContact (1/60) ((ballStep1 (1/60))^[k] dropBall)) ∧
    (stepsN (fun _ => 0) (1/60) 2 [dropBall] = [(ballStep1 (1/60))^[2] dropBall] ∧
     ((ballStep1 (1/60))^[2] dropBall).vy = GRAVITY * ((2 : ℕ) : ℚ) * (1/60) ∧
     (∀ c : Ball, c.active = true → freeOfContact (1/60) c →
       (ballStep1 (1/60) c).vy = c.vy + GRAVITY * (1/60) ∧
       (ballStep1 (1/60) c).x = c.x + c.vx * (1/60) ∧
       (ballStep1 (1/60) c).y = c.y + (c.vy + GRAVITY * (1/60)) * (1/60))) :=
  ⟨dropBall_free,
   free_fall (fun _ => 0) (1/60) 2 dropBall rfl rfl rfl dropBall_free⟩

/-- C1: for an active body whose post-integration position penetrates
the floor, the step clamps y to FLOOR_Y minus radius; and if the body is
moving downward, the rebound sets the vertical velocity to the
pre-impact speed times minus the restitution and scales the horizontal
velocity by the friction, before the low-residual-speed damping is
applied. -/
theorem floor_restitution (dt : ℚ) (b : Ball) (hact : b.active = true)
    (hover : (integBall dt b).y + b.radius > FLOOR_Y) :
    (ballStep1 dt b).y = FLOOR_Y - b.radius ∧
    (0 < (integBall dt b).vy →
      floorStep (integBall dt b) =
        floorVisual (integBall dt b).vy
          (floorDamp (integBall dt b).vy (floorBounce (floorClamp (integBall dt b)))) ∧
      (floorBounce (floorClamp (integBall dt b))).vy =
        (-(integBall dt b).vy) * b.restitution ∧
      (floorBounce (floorClamp (integBall dt b))).vx = b.vx * b.friction) := by
  have hai : (integBall dt b).active = true := by rw [active_integBall]; exact hact
  have hri : (integBall dt b).radius = b.radius := radius_integBall dt b
  have hcond : (integBall dt b).y + (integBall dt b).radius > FLOOR_Y := by
    rw [hri]; exact hover
  constructor
  · unfold ballStep1 boundaryBall
    rw [hai]
    simp only [Bool.not_true]
    rw [if_neg (by decide : ¬((false : Bool) = true))]
    rw [y_hardStop, y_visualStep, y_stretchStep, y_wallStep]
    unfold floorStep
    rw [if_pos hcond, y_floorCollide, hri]
  · intro hvy
    refine ⟨?_, ?_, ?_⟩
    · unfold floorStep
      rw [if_pos hcond]
      unfold floorCollide
      dsimp only
      rw [if_pos (show (floorClamp (integBall dt b)).vy > 0 from hvy)]
      rfl
    · show (-(floorClamp (integBall dt b)).vy) * (floorClamp (integBall dt b)).restitution = _
      rw [show (floorClamp (integBall dt b)).restitution = b.restitution from
        restitution_of_fixedPart
          ((fixedPart_floorClamp _).trans (fixedPart_integBall dt b))]
      rfl
    · show (floorClamp (integBall dt b)).vx * (floorClamp (integBall dt b)).friction = _
      rw [show (floorClamp (integBall dt b)).vx = b.vx from vx_integBall dt b]
      rw [show (floorClamp (integBall dt b)).friction = b.friction from
        friction_of_fixedPart
          ((fixedPart_floorClamp _).trans (fixedPart_integBall dt b))]

/-- Ball penetrating the floor after one integration, used by the
floor-restitution witness. -/
def impactBall : Ball :=
  { defaultBall with
    x := 100, y := 400, vx := 10, vy := 0, radius := 30,
    mass := 900, restitution := 17/20, friction := 23/25, active := true }

/-- Witness for the floor-restitution theorem at a concrete impact. -/
theorem floor_restitution_witness :
    impactBall.active = true ∧
    (integBall (1/60) impactBall).y + impactBall.radius > FLOOR_Y ∧
    ((ballStep1 (1/60) impactBall).y = FLOOR_Y - impactBall.radius ∧
     (0 < (integBall (1/60) impactBall).vy →
       floorStep (integBall (1/60) impactBall) =
         floorVisual (integBall (1/60) impactBall).vy
           (floorDamp (integBall (1/60) impactBall).vy
             (floorBounce (floorClamp (integBall (1/60) impactBall)))) ∧
       (floorBounce (floorClamp (integBall (1/60) impactBall))).vy =
         (-(integBall (1/60) impactBall).vy) * impactBall.restitution ∧
       (floorBounce (floorClamp (integBall (1/60) impactBall))).vx =
         impactBall.vx * impactBall.friction)) :=
  ⟨rfl,
   by norm_num [integBall, impactBall, defaultBall, GRAVITY, FLOOR_Y],
   floor_restitution (1/60) impactBall rfl
     (by norm_num [integBall, impactBall, defaultBall, GRAVITY, FLOOR_Y])⟩

/-- C10: one physics step with any timestep and any pool leaves the
radius, mass, material, base colour, restitution, friction and active
flag of every body unchanged; only position, velocity, rotation, squash
state and glow are mutated. -/
theorem updatePhysics_fixed_fields (sq : ℚ → ℚ) (dt : ℚ) (bs : List Ball) (i : ℕ)
    (hi : i < bs.length) :
    (updatePhysics sq dt bs).length = bs.length ∧
    ((updatePhysics sq dt bs).getD i defaultBall).radius =
      (bs.getD i defaultBall).radius ∧
    ((updatePhysics sq dt bs).getD i defaultBall).mass =
      (bs.getD i defaultBall).mass ∧
    ((updatePhysics sq dt bs).getD i defaultBall).material =
      (bs.getD i defaultBall).material ∧
    ((updatePhysics sq dt bs).getD i defaultBall).baseColor =
      (bs.getD i defaultBall).baseColor ∧
    ((updatePhysics sq dt bs).getD i defaultBall).restitution =
      (bs.getD i defaultBall).restitution ∧
    ((updatePhysics sq dt bs).getD i defaultBall).friction =
      (bs.getD i defaultBall).friction ∧
    ((updatePhysics sq dt bs).getD i defaultBall).active =
      (bs.getD i defaultBall).active := by
  have h := fixedPart_updatePhysics sq dt bs i
  exact ⟨updatePhysics_length sq dt bs, radius_of_fixedPart h, mass_of_fixedPart h,
    material_of_fixedPart h, baseColor_of_fixedPart h, restitution_of_fixedPart h,
    friction_of_fixedPart h, active_of_fixedPart h⟩

/-- Witness for the fixed-fields theorem on a concrete two-ball pool. -/
theorem updatePhysics_fixed_fields_witness :
    0 < [rubberBall, dropBall].length ∧
    ((updatePhysics (fun _ => 0) (1/60) [rubberBall, dropBall]).length =
        [rubberBall, dropBall].length ∧
     ((updatePhysics (fun _ => 0) (1/60) [rubberBall, dropBall]).getD 0 defaultBall).radius =
       ([rubberBall, dropBall].getD 0 defaultBall).radius ∧
     ((updatePhysics (fun _ => 0) (1/60) [rubberBall, dropBall]).getD 0 defaultBall).mass =
       ([rubberBall, dropBall].getD 0 defaultBall).mass ∧
     ((updatePhysics (fun _ => 0) (1/60) [rubberBall, dropBall]).getD 0 defaultBall).material =
       ([rubberBall, dropBall].getD 0 defaultBall).material ∧
     ((updatePhysics (fun _ => 0) (1/60) [rubberBall, dropBall]).getD 0 defaultBall).baseColor =
       ([rubberBall, dropBall].getD 0 defaultBall).baseColor ∧
     ((updatePhysics (fun _ => 0) (1/60) [rubberBall, dropBall]).getD 0 defaultBall).restitution =
       ([rubberBall, dropBall].getD 0 defaultBall).restitution ∧
     ((updatePhysics (fun _ => 0) (1/60) [rubberBall, dropBall]).getD 0 defaultBall).friction =
       ([rubberBall, dropBall].getD 0 defaultBall).friction ∧
     ((updatePhysics (fun _ => 0) (1/60) [rubberBall, dropBall]).getD 0 defaultBall).active =
       ([rubberBall, dropBall].getD 0 defaultBall).active) :=
  ⟨by decide, updatePhysics_fixed_fields (fun _ => 0) (1/60) [rubberBall, dropBall] 0 (by decide)⟩

theorem x_snapVx (b : Ball) : (snapVx b).x = b.x := by
  unfold snapVx; split <;> rfl

theorem x_snapVy (b : Ball) : (snapVy b).x = b.x := by
  unfold snapVy; split <;> rfl

theorem xy_frictionImpulse (sq : ℚ → ℚ) (a b : Ball)
    (nx ny rvx rvy vn jn invMa invMb invSum : ℚ) :
    (frictionImpulse sq a b nx ny rvx rvy vn jn invMa invMb invSum).1.x = a.x ∧
    (frictionImpulse sq a b nx ny rvx rvy vn jn invMa invMb invSum).1.y = a.y ∧
    (frictionImpulse sq a b nx ny rvx rvy vn jn invMa invMb invSum).2.x = b.x ∧
    (frictionImpulse sq a b nx ny rvx rvy vn jn invMa invMb invSum).2.y = b.y := by
  unfold frictionImpulse applyTangentImpulse; dsimp only; split
  · exact ⟨rfl, rfl, rfl, rfl⟩
  · exact ⟨rfl, rfl, rfl, rfl⟩

theorem xy_restingGuard (a b : Ball) :
    (restingGuard a b).1.x = a.x ∧ (restingGuard a b).1.y = a.y ∧
    (restingGuard a b).2.x = b.x ∧ (restingGuard a b).2.y = b.y := by
  unfold restingGuard; split
  · exact ⟨by rw [x_snapVy, x_snapVx], by rw [y_snapVy, y_snapVx],
      by rw [x_snapVy, x_snapVx], by rw [y_snapVy, y_snapVx]⟩
  · exact ⟨rfl, rfl, rfl, rfl⟩

theorem xy_resolveVelocity (sq : ℚ → ℚ) (a b : Ball) (nx ny invMa invMb invSum : ℚ) :
    (resolveVelocity sq a b nx ny invMa invMb invSum).1.x = a.x ∧
    (resolveVelocity sq a b nx ny invMa invMb invSum).1.y = a.y ∧
    (resolveVelocity sq a b nx ny invMa invMb invSum).2.x = b.x ∧
    (resolveVelocity sq a b nx ny invMa invMb invSum).2.y = b.y := by
  unfold resolveVelocity; dsimp only; split
  · exact ⟨rfl, rfl, rfl, rfl⟩
  · refine ⟨?_, ?_, ?_, ?_⟩
    · rw [(xy_restingGuard _ _).1, (xy_frictionImpulse _ _ _ _ _ _ _ _ _ _ _ _).1]; rfl
    · rw [(xy_restingGuard _ _).2.1, (xy_frictionImpulse _ _ _ _ _ _ _ _ _ _ _ _).2.1]; rfl
    · rw [(xy_restingGuard _ _).2.2.1, (xy_frictionImpulse _ _ _ _ _ _ _ _ _ _ _ _).2.2.1]; rfl
    · rw [(xy_restingGuard _ _).2.2.2, (xy_frictionImpulse _ _ _ _ _ _ _ _ _ _ _ _).2.2.2]; rfl

/-- Normal form of the pairwise step for an overlapping active pair: the
overlap test passes and the step is positional correction followed by
velocity resolution. -/
theorem pairStep_eq_of_overlap (sq : ℚ → ℚ) (a b : Ball)
    (haa : a.active = true) (hbb : b.active = true)
    (hov : (b.x - a.x) * (b.x - a.x) + (b.y - a.y) * (b.y - a.y) <
      (a.radius + b.radius) * (a.radius + b.radius)) :
    pairStep sq a b =
      resolveVelocity sq
        (posCorrect a b (contactGeom sq a b).1 (contactGeom sq a b).2.1
          (corrOf ((a.radius + b.radius) - (contactGeom sq a b).2.2))
          (1 / a.mass) (1 / b.mass) (invSumOf a b)).1
        (posCorrect a b (contactGeom sq a b).1 (contactGeom sq a b).2.1
          (corrOf ((a.radius + b.radius) - (contactGeom sq a b).2.2))
          (1 / a.mass) (1 / b.mass) (invSumOf a b)).2
        (contactGeom sq a b).1 (contactGeom sq a b).2.1
        (1 / a.mass) (1 / b.mass) (invSumOf a b) := by
  unfold pairStep
  rw [haa, hbb]
  simp only [Bool.not_true, Bool.or_self]
  rw [if_neg (by decide : ¬((false : Bool) = true))]
  rw [if_neg (not_le.mpr hov)]

/-- The contact geometry when the oracle distance clears the degeneracy
threshold: the unit normal along the centre delta and the distance. -/
theorem contactGeom_eq (sq : ℚ → ℚ) (a b : Ball) (d0 : ℚ)
    (hd : d0 = sqrtSafe sq ((b.x - a.x) * (b.x - a.x) + (b.y - a.y) * (b.y - a.y)))
    (hdlb : 1/10000 ≤ d0) :
    contactGeom sq a b = ((b.x - a.x) / d0, (b.y - a.y) / d0, d0) := by
  simp only [contactGeom, degenFix]
  rw [← hd]
  rw [if_neg (not_lt.mpr hdlb)]

theorem invSumOf_pos_eq (a b : Ball) (hma : 0 < a.mass) (hmb : 0 < b.mass) :
    invSumOf a b = 1 / a.mass + 1 / b.mass := by
  unfold invSumOf
  dsimp only
  rw [if_neg (not_le.mpr (by positivity))]

theorem corrOf_nonneg (p : ℚ) : 0 ≤ corrOf p := by
  unfold corrOf COLLISION_SLOP POSITION_CORRECT_PCT
  split
  · norm_num
  · rename_i h
    exact mul_nonneg (by linarith [not_lt.mp h]) (by norm_num)

theorem corrOf_eq_zero (p : ℚ) (h : p ≤ 1/2) : corrOf p = 0 := by
  unfold corrOf COLLISION_SLOP POSITION_CORRECT_PCT
  split
  · ring
  · rename_i h2
    rw [le_antisymm (by linarith) (not_lt.mp h2)]
    ring

theorem corrOf_eq_of_gt (p : ℚ) (h : 1/2 < p) : corrOf p = (p - 1/2) * (3/5) := by
  unfold corrOf COLLISION_SLOP POSITION_CORRECT_PCT
  rw [if_neg (not_lt.mpr (by linarith))]

/-- C3: for an overlapping active pair, the positional correction moves
the bodies apart along the contact normal by max (0, overlap - SLOP)
times 0.60 in total, split in proportion to inverse mass, and the new
centre distance is the old distance plus that correction; hence the
penetration depth never increases, is left unchanged at or below SLOP
(0.5), and above SLOP contracts strictly toward SLOP without crossing
it. -/
theorem pair_positional (sq : ℚ → ℚ) (a b : Ball) (d0 : ℚ)
    (haa : a.active = true) (hbb : b.active = true)
    (hma : 0 < a.mass) (hmb : 0 < b.mass)
    (hd : d0 = sqrtSafe sq ((b.x - a.x) * (b.x - a.x) + (b.y - a.y) * (b.y - a.y)))
    (hsq : d0 * d0 = (b.x - a.x) * (b.x - a.x) + (b.y - a.y) * (b.y - a.y))
    (hdlb : 1/10000 ≤ d0)
    (hov : (b.x - a.x) * (b.x - a.x) + (b.y - a.y) * (b.y - a.y) <
      (a.radius + b.radius) * (a.radius + b.radius)) :
    (pairStep sq a b).1.x =
      a.x - (b.x - a.x) / d0 *
        (corrOf (a.radius + b.radius - d0) * (1 / a.mass / (1 / a.mass + 1 / b.mass))) ∧
    (pairStep sq a b).1.y =
      a.y - (b.y - a.y) / d0 *
        (corrOf (a.radius + b.radius - d0) * (1 / a.mass / (1 / a.mass + 1 / b.mass))) ∧
    (pairStep sq a b).2.x =
      b.x + (b.x - a.x) / d0 *
        (corrOf (a.radius + b.radius - d0) * (1 / b.mass / (1 / a.mass + 1 / b.mass))) ∧
    (pairStep sq a b).2.y =
      b.y + (b.y - a.y) / d0 *
        (corrOf (a.radius + b.radius - d0) * (1 / b.mass / (1 / a.mass + 1 / b.mass))) ∧
    ((pairStep sq a b).2.x - (pairStep sq a b).1.x) *
        ((pairStep sq a b).2.x - (pairStep sq a b).1.x) +
      ((pairStep sq a b).2.y - (pairStep sq a b).1.y) *
        ((pairStep sq a b).2.y - (pairStep sq a b).1.y) =
      (d0 + corrOf (a.radius + b.radius - d0)) *
        (d0 + corrOf (a.radius + b.radius - d0)) ∧
    corrOf (a.radius + b.radius - d0) =
      (if a.radius + b.radius - d0 - COLLISION_SLOP < 0 then 0
       else a.radius + b.radius - d0 - COLLISION_SLOP) * POSITION_CORRECT_PCT ∧
    a.radius + b.radius - (d0 + corrOf (a.radius + b.radius - d0)) ≤
      a.radius + b.radius - d0 ∧
    (a.radius + b.radius - d0 ≤ 1/2 →
      a.radius + b.radius - (d0 + corrOf (a.radius + b.radius - d0)) =
        a.radius + b.radius - d0) ∧
    (1/2 < a.radius + b.radius - d0 →
      a.radius + b.radius - (d0 + corrOf (a.radius + b.radius - d0)) =
        2/5 * (a.radius + b.radius - d0) + 3/10 ∧
      1/2 < a.radius + b.radius - (d0 + corrOf (a.radius + b.radius - d0)) ∧
      a.radius + b.radius - (d0 + corrOf (a.radius + b.radius - d0)) <
        a.radius + b.radius - d0) := by
  have hd0 : (0:ℚ) < d0 := lt_of_lt_of_le (by norm_num) hdlb
  have hd0ne : d0 ≠ 0 := ne_of_gt hd0
  have hma' : a.mass ≠ 0 := ne_of_gt hma
  have hmb' : b.mass ≠ 0 := ne_of_gt hmb
  have hs : (0:ℚ) < 1 / a.mass + 1 / b.mass := by positivity
  have hsne : 1 / a.mass + 1 / b.mass ≠ 0 := ne_of_gt hs
  have hP := pairStep_eq_of_overlap sq a b haa hbb hov
  rw [contactGeom_eq sq a b d0 hd hdlb, invSumOf_pos_eq a b hma hmb] at hP
  dsimp only at hP
  have h1 : (pairStep sq a b).1.x =
      a.x - (b.x - a.x) / d0 *
        (corrOf (a.radius + b.radius - d0) * (1 / a.mass / (1 / a.mass + 1 / b.mass))) := by
    rw [hP, (xy_resolveVelocity _ _ _ _ _ _ _ _).1]; rfl
  have h2 : (pairStep sq a b).1.y =
      a.y - (b.y - a.y) / d0 *
        (corrOf (a.radius + b.radius - d0) * (1 / a.mass / (1 / a.mass + 1 / b.mass))) := by
    rw [hP, (xy_resolveVelocity _ _ _ _ _ _ _ _).2.1]; rfl
  have h3 : (pairStep sq a b).2.x =
      b.x + (b.x - a.x) / d0 *
        (corrOf (a.radius + b.radius - d0) * (1 / b.mass / (1 / a.mass + 1 / b.mass))) := by
    rw [hP, (xy_resolveVelocity _ _ _ _ _ _ _ _).2.2.1]; rfl
  have h4 : (pairStep sq a b).2.y =
      b.y + (b.y - a.y) / d0 *
        (corrOf (a.radius + b.radius - d0) * (1 / b.mass / (1 / a.mass + 1 / b.mass))) := by
    rw [hP, (xy_resolveVelocity _ _ _ _ _ _ _ _).2.2.2]; rfl
  have hdx : (pairStep sq a b).2.x - (pairStep sq a b).1.x =
      (b.x - a.x) / d0 * (d0 + corrOf (a.radius + b.radius - d0)) := by
    rw [h3, h1]
    field_simp
    ring
  have hdy : (pairStep sq a b).2.y - (pairStep sq a b).1.y =
      (b.y - a.y) / d0 * (d0 + corrOf (a.radius + b.radius - d0)) := by
    rw [h4, h2]
    field_simp
    ring
  have hk0 : 0 ≤ corrOf (a.radius + b.radius - d0) := corrOf_nonneg _
  refine ⟨h1, h2, h3, h4, ?_, rfl, by linarith, ?_, ?_⟩
  · rw [hdx, hdy]
    have key : (b.x - a.x) * (b.x - a.x) + (b.y - a.y) * (b.y - a.y) = d0 * d0 := hsq.symm
    field_simp
    linear_combination (d0 + corrOf (a.radius + b.radius - d0)) ^ 2 * key
  · intro hle
    rw [corrOf_eq_zero _ hle]
    ring
  · intro hgt
    rw [corrOf_eq_of_gt _ hgt]
    exact ⟨by ring, by linarith, by linarith⟩

/-- Square-root oracle returning 10 at 100, used by concrete pairwise
examples whose squared centre distance is 100. -/
def sqrtOracle100 (v : ℚ) : ℚ := if v = 100 then 10 else 0

/-- Left ball of the concrete overlapping pair used by witnesses. -/
def ballPA : Ball :=
  { defaultBall with
    x := 100, y := 100, vx := 0, vy := 0, radius := 10,
    mass := 100, restitution := 1/2, friction := 1/2, active := true }

/-- Right ball of the concrete overlapping pair used by witnesses. -/
def ballPB : Ball :=
  { defaultBall with
    x := 110, y := 100, vx := 0, vy := 0, radius := 10,
    mass := 100, restitution := 1/2, friction := 1/2, active := true }

/-- Witness for the positional-correction theorem at a concrete
overlapping pair with centre distance 10 and overlap 10. -/
theorem pair_positional_witness :
    (10 : ℚ) = sqrtSafe sqrtOracle100
      ((ballPB.x - ballPA.x) * (ballPB.x - ballPA.x) +
        (ballPB.y - ballPA.y) * (ballPB.y - ballPA.y)) ∧
    ((pairStep sqrtOracle100 ballPA ballPB).1.x =
      ballPA.x - (ballPB.x - ballPA.x) / 10 *
        (corrOf (ballPA.radius + ballPB.radius - 10) *
          (1 / ballPA.mass / (1 / ballPA.mass + 1 / ballPB.mass))) ∧
    (pairStep sqrtOracle100 ballPA ballPB).1.y =
      ballPA.y - (ballPB.y - ballPA.y) / 10 *
        (corrOf (ballPA.radius + ballPB.radius - 10) *
          (1 / ballPA.mass / (1 / ballPA.mass + 1 / ballPB.mass))) ∧
    (pairStep sqrtOracle100 ballPA ballPB).2.x =
      ballPB.x + (ballPB.x - ballPA.x) / 10 *
        (corrOf (ballPA.radius + ballPB.radius - 10) *
          (1 / ballPB.mass / (1 / ballPA.mass + 1 / ballPB.mass))) ∧
    (pairStep sqrtOracle100 ballPA ballPB).2.y =
      ballPB.y + (ballPB.y - ballPA.y) / 10 *
        (corrOf (ballPA.radius + ballPB.radius - 10) *
          (1 / ballPB.mass / (1 / ballPA.mass + 1 / ballPB.mass))) ∧
    ((pairStep sqrtOracle100 ballPA ballPB).2.x -
        (pairStep sqrtOracle100 ballPA ballPB).1.x) *
        ((pairStep sqrtOracle100 ballPA ballPB).2.x -
          (pairStep sqrtOracle100 ballPA ballPB).1.x) +
      ((pairStep sqrtOracle100 ballPA ballPB).2.y -
          (pairStep sqrtOracle100 ballPA ballPB).1.y) *
        ((pairStep sqrtOracle100 ballPA ballPB).2.y -
          (pairStep sqrtOracle100 ballPA ballPB).1.y) =
      (10 + corrOf (ballPA.radius + ballPB.radius - 10)) *
        (10 + corrOf (ballPA.radius + ballPB.radius - 10)) ∧
    corrOf (ballPA.radius + ballPB.radius - 10) =
      (if ballPA.radius + ballPB.radius - 10 - COLLISION_SLOP < 0 then 0
       else ballPA.radius + ballPB.radius - 10 - COLLISION_SLOP) * POSITION_CORRECT_PCT ∧
    ballPA.radius + ballPB.radius - (10 + corrOf (ballPA.radius + ballPB.radius - 10)) ≤
      ballPA.radius + ballPB.radius - 10 ∧
    (ballPA.radius + ballPB.radius - 10 ≤ 1/2 →
      ballPA.radius + ballPB.radius - (10 + corrOf (ballPA.radius + ballPB.radius - 10)) =
        ballPA.radius + ballPB.radius - 10) ∧
    (1/2 < ballPA.radius + ballPB.radius - 10 →
      ballPA.radius + ballPB.radius - (10 + corrOf (ballPA.radius + ballPB.radius - 10)) =
        2/5 * (ballPA.radius + ballPB.radius - 10) + 3/10 ∧
      1/2 < ballPA.radius + ballPB.radius -
        (10 + corrOf (ballPA.radius + ballPB.radius - 10)) ∧
      ballPA.radius + ballPB.radius - (10 + corrOf (ballPA.radius + ballPB.radius - 10)) <
        ballPA.radius + ballPB.radius - 10)) :=
  ⟨by norm_num [ballPA, ballPB, defaultBall, sqrtSafe, sqrtOracle100],
   pair_positional sqrtOracle100 ballPA ballPB 10 rfl rfl
     (by norm_num [ballPA, defaultBall])
     (by norm_num [ballPB, defaultBall])
     (by norm_num [ballPA, ballPB, defaultBall, sqrtSafe, sqrtOracle100])
     (by norm_num [ballPA, ballPB, defaultBall])
     (by norm_num)
     (by norm_num [ballPA, ballPB, defaultBall])⟩

theorem restingGuard_eq (a b : Ball)
    (h : ¬(a.y + a.radius ≥ FLOOR_Y - 1/2 ∧ b.y + b.radius ≥ FLOOR_Y - 1/2)) :
    restingGuard a b = (a, b) := by
  unfold restingGuard
  rw [if_neg h]

theorem applyTangentImpulse_normal (a b : Ball) (tx ty jt invMa invMb nx ny : ℚ)
    (ht : tx * nx + ty * ny = 0) :
    ((applyTangentImpulse a b tx ty jt invMa invMb).2.vx -
      (applyTangentImpulse a b tx ty jt invMa invMb).1.vx) * nx +
    ((applyTangentImpulse a b tx ty jt invMa invMb).2.vy -
      (applyTangentImpulse a b tx ty jt invMa invMb).1.vy) * ny =
    (b.vx - a.vx) * nx + (b.vy - a.vy) * ny := by
  unfold applyTangentImpulse
  dsimp only
  linear_combination jt * (invMa + invMb) * ht

theorem applyNormalImpulse_vel (a b : Ball) (nx ny jn invMa invMb : ℚ) :
    ((applyNormalImpulse a b nx ny jn invMa invMb).2.vx -
      (applyNormalImpulse a b nx ny jn invMa invMb).1.vx) * nx +
    ((applyNormalImpulse a b nx ny jn invMa invMb).2.vy -
      (applyNormalImpulse a b nx ny jn invMa invMb).1.vy) * ny =
    (b.vx - a.vx) * nx + (b.vy - a.vy) * ny + jn * (invMa + invMb) * (nx * nx + ny * ny) := by
  unfold applyNormalImpulse
  dsimp only
  ring

/-- The tangential friction impulse never changes the relative velocity
component along the unit contact normal, because the tangent is
orthogonal to the normal. -/
theorem frictionImpulse_normal (sq : ℚ → ℚ) (a b : Ball)
    (nx ny rvx rvy vn jn invMa invMb invSum : ℚ)
    (hunit : nx * nx + ny * ny = 1) (hrv : rvx * nx + rvy * ny = vn) :
    ((frictionImpulse sq a b nx ny rvx rvy vn jn invMa invMb invSum).2.vx -
      (frictionImpulse sq a b nx ny rvx rvy vn jn invMa invMb invSum).1.vx) * nx +
    ((frictionImpulse sq a b nx ny rvx rvy vn jn invMa invMb invSum).2.vy -
      (frictionImpulse sq a b nx ny rvx rvy vn jn invMa invMb invSum).1.vy) * ny =
    (b.vx - a.vx) * nx + (b.vy - a.vy) * ny := by
  have key : ∀ S : ℚ, ((rvx - vn * nx) / S) * nx + ((rvy - vn * ny) / S) * ny = 0 := by
    intro S
    have htv : (rvx - vn * nx) * nx + (rvy - vn * ny) * ny = 0 := by
      linear_combination hrv - vn * hunit
    calc ((rvx - vn * nx) / S) * nx + ((rvy - vn * ny) / S) * ny
        = ((rvx - vn * nx) * nx + (rvy - vn * ny) * ny) / S := by ring
      _ = 0 := by rw [htv, zero_div]
  unfold frictionImpulse
  dsimp only
  split
  · exact applyTangentImpulse_normal a b _ _ _ invMa invMb nx ny (key _)
  · rfl

/-- The velocity resolution of a non-separating contact with a unit
normal and positive inverse-mass sum, when the resting-pair guard does
not fire, scales the relative normal velocity by exactly minus the
effective restitution. -/
theorem resolveVelocity_normal (sq : ℚ → ℚ) (a b : Ball) (nx ny invMa invMb invSum : ℚ)
    (hunit : nx * nx + ny * ny = 1)
    (hsum : invSum = invMa + invMb) (hspos : 0 < invSum)
    (hng : ¬(a.y + a.radius ≥ FLOOR_Y - 1/2 ∧ b.y + b.radius ≥ FLOOR_Y - 1/2))
    (hvn : (b.vx - a.vx) * nx + (b.vy - a.vy) * ny ≤ 0) :
    ((resolveVelocity sq a b nx ny invMa invMb invSum).2.vx -
      (resolveVelocity sq a b nx ny invMa invMb invSum).1.vx) * nx +
    ((resolveVelocity sq a b nx ny invMa invMb invSum).2.vy -
      (resolveVelocity sq a b nx ny invMa invMb invSum).1.vy) * ny =
    -(if a.restitution < b.restitution then a.restitution else b.restitution) *
      ((b.vx - a.vx) * nx + (b.vy - a.vy) * ny) := by
  have hsne : invSum ≠ 0 := ne_of_gt hspos
  unfold resolveVelocity
  dsimp only
  rw [if_neg (not_lt.mpr hvn)]
  generalize hE : (if a.restitution < b.restitution then a.restitution else b.restitution) = E
  generalize hJ : -(1 + E) * ((b.vx - a.vx) * nx + (b.vy - a.vy) * ny) / invSum = J
  have hy1 : (frictionImpulse sq (applyNormalImpulse a b nx ny J invMa invMb).1
      (applyNormalImpulse a b nx ny J invMa invMb).2 nx ny (b.vx - a.vx) (b.vy - a.vy)
      ((b.vx - a.vx) * nx + (b.vy - a.vy) * ny) J invMa invMb invSum).1.y = a.y := by
    rw [(xy_frictionImpulse _ _ _ _ _ _ _ _ _ _ _ _).2.1]
    rfl
  have hy2 : (frictionImpulse sq (applyNormalImpulse a b nx ny J invMa invMb).1
      (applyNormalImpulse a b nx ny J invMa invMb).2 nx ny (b.vx - a.vx) (b.vy - a.vy)
      ((b.vx - a.vx) * nx + (b.vy - a.vy) * ny) J invMa invMb invSum).2.y = b.y := by
    rw [(xy_frictionImpulse _ _ _ _ _ _ _ _ _ _ _ _).2.2.2]
    rfl
  have hr1 : (frictionImpulse sq (applyNormalImpulse a b nx ny J invMa invMb).1
      (applyNormalImpulse a b nx ny J invMa invMb).2 nx ny (b.vx - a.vx) (b.vy - a.vy)
      ((b.vx - a.vx) * nx + (b.vy - a.vy) * ny) J invMa invMb invSum).1.radius = a.radius :=
    radius_of_fixedPart
      (((fixedPart_frictionImpulse _ _ _ _ _ _ _ _ _ _ _ _).1).trans
        (fixedPart_applyNormalImpulse _ _ _ _ _ _ _).1)
  have hr2 : (frictionImpulse sq (applyNormalImpulse a b nx ny J invMa invMb).1
      (applyNormalImpulse a b nx ny J invMa invMb).2 nx ny (b.vx - a.vx) (b.vy - a.vy)
      ((b.vx - a.vx) * nx + (b.vy - a.vy) * ny) J invMa invMb invSum).2.radius = b.radius :=
    radius_of_fixedPart
      (((fixedPart_frictionImpulse _ _ _ _ _ _ _ _ _ _ _ _).2).trans
        (fixedPart_applyNormalImpulse _ _ _ _ _ _ _).2)
  rw [restingGuard_eq _ _ (by rw [hy1, hr1, hy2, hr2]; exact hng)]
  dsimp only
  rw [frictionImpulse_normal sq _ _ nx ny (b.vx - a.vx) (b.vy - a.vy)
    ((b.vx - a.vx) * nx + (b.vy - a.vy) * ny) J invMa invMb invSum hunit rfl]
  rw [applyNormalImpulse_vel, hunit, ← hsum, ← hJ]
  field_simp
  ring

/-- The positional correction cannot move a body whose centre starts the
height of one full contact diameter above the floor band into the floor
band: the correction along the normal is bounded by the overlap, which
is below the radius sum. -/
theorem posCorrect_airborne (a b : Ball) (d0 : ℚ)
    (hma : 0 < a.mass) (hmb : 0 < b.mass)
    (hra : 0 < a.radius) (hrb : 0 < b.radius)
    (hsq : d0 * d0 = (b.x - a.x) * (b.x - a.x) + (b.y - a.y) * (b.y - a.y))
    (hd0 : 0 < d0)
    (hair : a.y + a.radius + (a.radius + b.radius) < FLOOR_Y - 1/2) :
    ¬((posCorrect a b ((b.x - a.x) / d0) ((b.y - a.y) / d0)
        (corrOf (a.radius + b.radius - d0)) (1 / a.mass) (1 / b.mass)
        (1 / a.mass + 1 / b.mass)).1.y +
      (posCorrect a b ((b.x - a.x) / d0) ((b.y - a.y) / d0)
        (corrOf (a.radius + b.radius - d0)) (1 / a.mass) (1 / b.mass)
        (1 / a.mass + 1 / b.mass)).1.radius ≥ FLOOR_Y - 1/2 ∧
      (posCorrect a b ((b.x - a.x) / d0) ((b.y - a.y) / d0)
        (corrOf (a.radius + b.radius - d0)) (1 / a.mass) (1 / b.mass)
        (1 / a.mass + 1 / b.mass)).2.y +
      (posCorrect a b ((b.x - a.x) / d0) ((b.y - a.y) / d0)
        (corrOf (a.radius + b.radius - d0)) (1 / a.mass) (1 / b.mass)
        (1 / a.mass + 1 / b.mass)).2.radius ≥ FLOOR_Y - 1/2) := by
  intro hcontra
  have h1 : a.y - (b.y - a.y) / d0 *
      (corrOf (a.radius + b.radius - d0) * (1 / a.mass / (1 / a.mass + 1 / b.mass))) +
      a.radius ≥ FLOOR_Y - 1/2 := hcontra.1
  have hk0 : 0 ≤ corrOf (a.radius + b.radius - d0) := corrOf_nonneg _
  have hklt : corrOf (a.radius + b.radius - d0) < a.radius + b.radius := by
    by_cases hp : a.radius + b.radius - d0 ≤ 1/2
    · rw [corrOf_eq_zero _ hp]
      linarith
    · rw [corrOf_eq_of_gt _ (lt_of_not_le hp)]
      linarith
  have hshare0 : (0:ℚ) ≤ 1 / a.mass / (1 / a.mass + 1 / b.mass) := by positivity
  have hshare1 : 1 / a.mass / (1 / a.mass + 1 / b.mass) ≤ 1 := by
    rw [div_le_one (by positivity)]
    exact le_add_of_nonneg_right (by positivity)
  have hdy2 : (b.y - a.y) * (b.y - a.y) ≤ d0 * d0 := by
    nlinarith [mul_self_nonneg (b.x - a.x)]
  have hdyle : b.y - a.y ≤ d0 := by
    nlinarith [hdy2, sq_nonneg (b.y - a.y - d0), hd0]
  have hdyge : -d0 ≤ b.y - a.y := by
    nlinarith [hdy2, sq_nonneg (b.y - a.y + d0), hd0]
  have hnyu : (b.y - a.y) / d0 ≤ 1 := by
    rw [div_le_one hd0]
    exact hdyle
  have hnyl : -1 ≤ (b.y - a.y) / d0 := by
    rw [le_div_iff hd0]
    linarith
  have ht0 : 0 ≤ corrOf (a.radius + b.radius - d0) *
      (1 / a.mass / (1 / a.mass + 1 / b.mass)) := mul_nonneg hk0 hshare0
  have htk : corrOf (a.radius + b.radius - d0) *
      (1 / a.mass / (1 / a.mass + 1 / b.mass)) ≤ corrOf (a.radius + b.radius - d0) :=
    mul_le_of_le_one_right hk0 hshare1
  have hflip : -((b.y - a.y) / d0 * (corrOf (a.radius + b.radius - d0) *
      (1 / a.mass / (1 / a.mass + 1 / b.mass)))) ≤
      corrOf (a.radius + b.radius - d0) *
        (1 / a.mass / (1 / a.mass + 1 / b.mass)) := by
    nlinarith [mul_nonneg (by linarith : (0:ℚ) ≤ 1 + (b.y - a.y) / d0) ht0]
  linarith

/-- C2 (amended): for an overlapping, non-separating active pair whose
first body is clearly airborne (so the resting-pair jitter guard cannot
fire), the pairwise resolution makes the post-step relative velocity
along the contact normal exactly minus the effective restitution (the
minimum of the two restitutions) times its pre-step value; the friction
impulse is orthogonal to the normal and leaves that component unchanged,
so the post-step relative normal speed is at most the effective
restitution times the pre-step relative normal speed. -/
theorem no_energy_gain (sq : ℚ → ℚ) (a b : Ball) (d0 : ℚ)
    (haa : a.active = true) (hbb : b.active = true)
    (hma : 0 < a.mass) (hmb : 0 < b.mass)
    (hra : 0 < a.radius) (hrb : 0 < b.radius)
    (hrea : 0 ≤ a.restitution) (hreb : 0 ≤ b.restitution)
    (hd : d0 = sqrtSafe sq ((b.x - a.x) * (b.x - a.x) + (b.y - a.y) * (b.y - a.y)))
    (hsq : d0 * d0 = (b.x - a.x) * (b.x - a.x) + (b.y - a.y) * (b.y - a.y))
    (hdlb : 1/10000 ≤ d0)
    (hov : (b.x - a.x) * (b.x - a.x) + (b.y - a.y) * (b.y - a.y) <
      (a.radius + b.radius) * (a.radius + b.radius))
    (hvn : (b.vx - a.vx) * ((b.x - a.x) / d0) + (b.vy - a.vy) * ((b.y - a.y) / d0) ≤ 0)
    (hair : a.y + a.radius + (a.radius + b.radius) < FLOOR_Y - 1/2) :
    ((pairStep sq a b).2.vx - (pairStep sq a b).1.vx) * ((b.x - a.x) / d0) +
      ((pairStep sq a b).2.vy - (pairStep sq a b).1.vy) * ((b.y - a.y) / d0) =
    -(if a.restitution < b.restitution then a.restitution else b.restitution) *
      ((b.vx - a.vx) * ((b.x - a.x) / d0) + (b.vy - a.vy) * ((b.y - a.y) / d0)) ∧
    |((pairStep sq a b).2.vx - (pairStep sq a b).1.vx) * ((b.x - a.x) / d0) +
      ((pairStep sq a b).2.vy - (pairStep sq a b).1.vy) * ((b.y - a.y) / d0)| ≤
    (if a.restitution < b.restitution then a.restitution else b.restitution) *
      |(b.vx - a.vx) * ((b.x - a.x) / d0) + (b.vy - a.vy) * ((b.y - a.y) / d0)| := by
  have hd0 : (0:ℚ) < d0 := lt_of_lt_of_le (by norm_num) hdlb
  have hd0ne : d0 ≠ 0 := ne_of_gt hd0
  have hP := pairStep_eq_of_overlap sq a b haa hbb hov
  rw [contactGeom_eq sq a b d0 hd hdlb, invSumOf_pos_eq a b hma hmb] at hP
  dsimp only at hP
  have hunit : ((b.x - a.x) / d0) * ((b.x - a.x) / d0) +
      ((b.y - a.y) / d0) * ((b.y - a.y) / d0) = 1 := by
    field_simp
    linear_combination -hsq
  have hng := posCorrect_airborne a b d0 hma hmb hra hrb hsq hd0 hair
  have hmain := resolveVelocity_normal sq
    (posCorrect a b ((b.x - a.x) / d0) ((b.y - a.y) / d0)
      (corrOf (a.radius + b.radius - d0)) (1 / a.mass) (1 / b.mass)
      (1 / a.mass + 1 / b.mass)).1
    (posCorrect a b ((b.x - a.x) / d0) ((b.y - a.y) / d0)
      (corrOf (a.radius + b.radius - d0)) (1 / a.mass) (1 / b.mass)
      (1 / a.mass + 1 / b.mass)).2
    ((b.x - a.x) / d0) ((b.y - a.y) / d0) (1 / a.mass) (1 / b.mass)
    (1 / a.mass + 1 / b.mass) hunit rfl (by positivity) hng hvn
  have h1 : ((pairStep sq a b).2.vx - (pairStep sq a b).1.vx) * ((b.x - a.x) / d0) +
      ((pairStep sq a b).2.vy - (pairStep sq a b).1.vy) * ((b.y - a.y) / d0) =
      -(if a.restitution < b.restitution then a.restitution else b.restitution) *
        ((b.vx - a.vx) * ((b.x - a.x) / d0) + (b.vy - a.vy) * ((b.y - a.y) / d0)) := by
    rw [hP]
    exact hmain
  have he0 : 0 ≤ (if a.restitution < b.restitution then a.restitution else b.restitution) := by
    split
    · exact hrea
    · exact hreb
  refine ⟨h1, ?_⟩
  rw [h1, neg_mul, abs_neg, abs_mul, abs_of_nonneg he0]

/-- Airborne approaching pair used by the no-energy-gain witness. -/
def ballVA : Ball :=
  { defaultBall with
    x := 100, y := 100, vx := 10, vy := 0, radius := 10,
    mass := 100, restitution := 17/20, friction := 23/25, active := true }

/-- Airborne approaching pair used by the no-energy-gain witness. -/
def ballVB : Ball :=
  { defaultBall with
    x := 110, y := 100, vx := -10, vy := 0, radius := 10,
    mass := 240, restitution := 11/20, friction := 197/200, active := true }

/-- Witness for the amended no-energy-gain theorem at a concrete
airborne approaching pair. -/
theorem no_energy_gain_witness :
    (ballVB.vx - ballVA.vx) * ((ballVB.x - ballVA.x) / 10) +
      (ballVB.vy - ballVA.vy) * ((ballVB.y - ballVA.y) / 10) ≤ 0 ∧
    (((pairStep sqrtOracle100 ballVA ballVB).2.vx -
        (pairStep sqrtOracle100 ballVA ballVB).1.vx) * ((ballVB.x - ballVA.x) / 10) +
      ((pairStep sqrtOracle100 ballVA ballVB).2.vy -
        (pairStep sqrtOracle100 ballVA ballVB).1.vy) * ((ballVB.y - ballVA.y) / 10) =
    -(if ballVA.restitution < ballVB.restitution then ballVA.restitution
      else ballVB.restitution) *
      ((ballVB.vx - ballVA.vx) * ((ballVB.x - ballVA.x) / 10) +
        (ballVB.vy - ballVA.vy) * ((ballVB.y - ballVA.y) / 10)) ∧
    |((pairStep sqrtOracle100 ballVA ballVB).2.vx -
        (pairStep sqrtOracle100 ballVA ballVB).1.vx) * ((ballVB.x - ballVA.x) / 10) +
      ((pairStep sqrtOracle100 ballVA ballVB).2.vy -
        (pairStep sqrtOracle100 ballVA ballVB).1.vy) * ((ballVB.y - ballVA.y) / 10)| ≤
    (if ballVA.restitution < ballVB.restitution then ballVA.restitution
     else ballVB.restitution) *
      |(ballVB.vx - ballVA.vx) * ((ballVB.x - ballVA.x) / 10) +
        (ballVB.vy - ballVA.vy) * ((ballVB.y - ballVA.y) / 10)|) :=
  ⟨by norm_num [ballVA, ballVB, defaultBall],
   no_energy_gain sqrtOracle100 ballVA ballVB 10 rfl rfl
     (by norm_num [ballVA, defaultBall])
     (by norm_num [ballVB, defaultBall])
     (by norm_num [ballVA, defaultBall])
     (by norm_num [ballVB, defaultBall])
     (by norm_num [ballVA, defaultBall])
     (by norm_num [ballVB, defaultBall])
     (by norm_num [ballVA, ballVB, defaultBall, sqrtSafe, sqrtOracle100])
     (by norm_num [ballVA, ballVB, defaultBall])
     (by norm_num)
     (by norm_num [ballVA, ballVB, defaultBall])
     (by norm_num [ballVA, ballVB, defaultBall])
     (by norm_num [ballVA, ballVB, defaultBall, FLOOR_Y])⟩

/-- Overlapping resting pair on the floor used by the no-energy-gain
counterexample. -/
def floorBallA : Ball :=
  { defaultBall with
    x := 100, y := 410, vx := 11/5, vy := 0, radius := 10,
    mass := 240, restitution := 11/20, friction := 197/200, active := true }

/-- Overlapping resting pair on the floor used by the no-energy-gain
counterexample. -/
def floorBallB : Ball :=
  { defaultBall with
    x := 110, y := 410, vx := 17/10, vy := 0, radius := 10,
    mass := 240, restitution := 11/20, friction := 197/200, active := true }

/-- C2 counterexample: an overlapping, approaching pair resting on the
floor whose post-resolution relative normal speed (167/80) exceeds the
effective restitution (11/20) times the pre-collision relative normal
speed (1/2), and even exceeds the pre-collision speed itself, because
the resting-pair jitter guard zeroes the slow post-impulse component of
one ball only. -/
theorem no_energy_gain_counterexample :
    (floorBallB.x - floorBallA.x) * (floorBallB.x - floorBallA.x) +
      (floorBallB.y - floorBallA.y) * (floorBallB.y - floorBallA.y) <
      (floorBallA.radius + floorBallB.radius) *
        (floorBallA.radius + floorBallB.radius) ∧
    contactGeom sqrtOracle100 floorBallA floorBallB = (1, 0, 10) ∧
    (floorBallB.vx - floorBallA.vx) * 1 + (floorBallB.vy - floorBallA.vy) * 0 = -(1/2) ∧
    ((pairStep sqrtOracle100 floorBallA floorBallB).2.vx -
        (pairStep sqrtOracle100 floorBallA floorBallB).1.vx) * 1 +
      ((pairStep sqrtOracle100 floorBallA floorBallB).2.vy -
        (pairStep sqrtOracle100 floorBallA floorBallB).1.vy) * 0 = 167/80 ∧
    ¬((167/80 : ℚ) ≤
      (if floorBallA.restitution < floorBallB.restitution then floorBallA.restitution
       else floorBallB.restitution) * |(-(1/2) : ℚ)|) ∧
    ¬((167/80 : ℚ) ≤ |(-(1/2) : ℚ)|) := by
  refine ⟨by norm_num [floorBallA, floorBallB, defaultBall],
    by norm_num [contactGeom, degenFix, sqrtSafe, sqrtOracle100,
      floorBallA, floorBallB, defaultBall],
    by norm_num [floorBallA, floorBallB, defaultBall], ?_, ?_, ?_⟩
  · norm_num [pairStep, contactGeom, degenFix, sqrtSafe, sqrtOracle100, corrOf,
      COLLISION_SLOP, POSITION_CORRECT_PCT, invSumOf, posCorrect, resolveVelocity,
      applyNormalImpulse, frictionImpulse, applyTangentImpulse, restingGuard,
      snapVx, snapVy, FLOOR_Y, floorBallA, floorBallB, defaultBall, abs]
  · rw [abs_of_nonpos (by norm_num)]
    norm_num [floorBallA, floorBallB, defaultBall]
  · rw [abs_of_nonpos (by norm_num)]
    norm_num

theorem frictionImpulse_id (sq : ℚ → ℚ) (a b : Ball)
    (nx ny rvx rvy vn jn invMa invMb invSum : ℚ)
    (h : sqrtSafe sq ((rvx - vn * nx) * (rvx - vn * nx) +
        (rvy - vn * ny) * (rvy - vn * ny)) ≤ 1/10000) :
    frictionImpulse sq a b nx ny rvx rvy vn jn invMa invMb invSum = (a, b) := by
  unfold frictionImpulse
  dsimp only
  rw [if_neg (not_lt.mpr h)]

theorem vel_posCorrect (a b : Ball) (nx ny corr invMa invMb invSum : ℚ) :
    (posCorrect a b nx ny corr invMa invMb invSum).1.vx = a.vx ∧
    (posCorrect a b nx ny corr invMa invMb invSum).1.vy = a.vy ∧
    (posCorrect a b nx ny corr invMa invMb invSum).2.vx = b.vx ∧
    (posCorrect a b nx ny corr invMa invMb invSum).2.vy = b.vy :=
  ⟨rfl, rfl, rfl, rfl⟩

theorem rest_posCorrect (a b : Ball) (nx ny corr invMa invMb invSum : ℚ) :
    (posCorrect a b nx ny corr invMa invMb invSum).1.restitution = a.restitution ∧
    (posCorrect a b nx ny corr invMa invMb invSum).2.restitution = b.restitution :=
  ⟨rfl, rfl⟩

/-- C6 (amended): two equal-radius, equal-mass active bodies with
restitution 1 colliding head-on along the contact normal with equal and
opposite velocities exchange velocities exactly, provided the first body
is clearly airborne so that the resting-pair jitter guard cannot fire;
the tangential relative velocity is zero in this configuration, so the
friction impulse contributes nothing. -/
theorem elastic_exchange (sq : ℚ → ℚ) (a b : Ball) (d0 s : ℚ)
    (haa : a.active = true) (hbb : b.active = true)
    (hm : a.mass = b.mass) (hmp : 0 < a.mass)
    (hr : a.radius = b.radius) (hra : 0 < a.radius)
    (hea : a.restitution = 1) (heb : b.restitution = 1)
    (hd : d0 = sqrtSafe sq ((b.x - a.x) * (b.x - a.x) + (b.y - a.y) * (b.y - a.y)))
    (hsq : d0 * d0 = (b.x - a.x) * (b.x - a.x) + (b.y - a.y) * (b.y - a.y))
    (hdlb : 1/10000 ≤ d0)
    (hov : (b.x - a.x) * (b.x - a.x) + (b.y - a.y) * (b.y - a.y) <
      (a.radius + b.radius) * (a.radius + b.radius))
    (hs : 0 < s)
    (hvax : a.vx = s * ((b.x - a.x) / d0)) (hvay : a.vy = s * ((b.y - a.y) / d0))
    (hvbx : b.vx = -a.vx) (hvby : b.vy = -a.vy)
    (hair : a.y + a.radius + (a.radius + b.radius) < FLOOR_Y - 1/2) :
    (pairStep sq a b).1.vx = b.vx ∧ (pairStep sq a b).1.vy = b.vy ∧
    (pairStep sq a b).2.vx = a.vx ∧ (pairStep sq a b).2.vy = a.vy := by
  have hd0 : (0:ℚ) < d0 := lt_of_lt_of_le (by norm_num) hdlb
  have hd0ne : d0 ≠ 0 := ne_of_gt hd0
  have hmbp : 0 < b.mass := hm ▸ hmp
  have hrb : 0 < b.radius := hr ▸ hra
  have hmane : a.mass ≠ 0 := ne_of_gt hmp
  have hmbne : b.mass ≠ 0 := ne_of_gt hmbp
  have hP := pairStep_eq_of_overlap sq a b haa hbb hov
  rw [contactGeom_eq sq a b d0 hd hdlb, invSumOf_pos_eq a b hmp hmbp] at hP
  dsimp only at hP
  have hunit : ((b.x - a.x) / d0) * ((b.x - a.x) / d0) +
      ((b.y - a.y) / d0) * ((b.y - a.y) / d0) = 1 := by
    field_simp
    linear_combination -hsq
  have hvn0 : (b.vx - a.vx) * ((b.x - a.x) / d0) +
      (b.vy - a.vy) * ((b.y - a.y) / d0) = -(2 * s) := by
    rw [hvbx, hvby, hvax, hvay]
    linear_combination (-(2:ℚ) * s) * hunit
  have hvnle : (b.vx - a.vx) * ((b.x - a.x) / d0) +
      (b.vy - a.vy) * ((b.y - a.y) / d0) ≤ 0 := by
    rw [hvn0]
    linarith
  have hng := posCorrect_airborne a b d0 hmp hmbp hra hrb hsq hd0 hair
  have ht1 : b.vx - a.vx - -(2 * s) * ((b.x - a.x) / d0) = 0 := by
    rw [hvbx, hvax]
    ring
  have ht2 : b.vy - a.vy - -(2 * s) * ((b.y - a.y) / d0) = 0 := by
    rw [hvby, hvay]
    ring
  have hres : pairStep sq a b =
      applyNormalImpulse
        (posCorrect a b ((b.x - a.x) / d0) ((b.y - a.y) / d0)
          (corrOf (a.radius + b.radius - d0)) (1 / a.mass) (1 / b.mass)
          (1 / a.mass + 1 / b.mass)).1
        (posCorrect a b ((b.x - a.x) / d0) ((b.y - a.y) / d0)
          (corrOf (a.radius + b.radius - d0)) (1 / a.mass) (1 / b.mass)
          (1 / a.mass + 1 / b.mass)).2
        ((b.x - a.x) / d0) ((b.y - a.y) / d0)
        (-(1 + 1) * -(2 * s) / (1 / a.mass + 1 / b.mass))
        (1 / a.mass) (1 / b.mass) := by
    rw [hP]
    unfold resolveVelocity
    dsimp only
    rw [(vel_posCorrect a b _ _ _ _ _ _).1, (vel_posCorrect a b _ _ _ _ _ _).2.1,
      (vel_posCorrect a b _ _ _ _ _ _).2.2.1, (vel_posCorrect a b _ _ _ _ _ _).2.2.2]
    rw [(rest_posCorrect a b _ _ _ _ _ _).1, (rest_posCorrect a b _ _ _ _ _ _).2]
    rw [hea, heb]
    rw [if_neg (lt_irrefl (1:ℚ))]
    rw [if_neg (not_lt.mpr hvnle)]
    rw [hvn0]
    rw [frictionImpulse_id sq _ _ _ _ _ _ _ _ _ _ _
      (by rw [ht1, ht2]; norm_num [sqrtSafe])]
    dsimp only
    refine restingGuard_eq _ _ ?_
    exact hng
  refine ⟨?_, ?_, ?_, ?_⟩
  · rw [hres]
    show a.vx - -(1 + 1) * -(2 * s) / (1 / a.mass + 1 / b.mass) *
      ((b.x - a.x) / d0) * (1 / a.mass) = b.vx
    rw [hvbx, hvax, ← hm]
    field_simp
    ring
  · rw [hres]
    show a.vy - -(1 + 1) * -(2 * s) / (1 / a.mass + 1 / b.mass) *
      ((b.y - a.y) / d0) * (1 / a.mass) = b.vy
    rw [hvby, hvay, ← hm]
    field_simp
    ring
  · rw [hres]
    show b.vx + -(1 + 1) * -(2 * s) / (1 / a.mass + 1 / b.mass) *
      ((b.x - a.x) / d0) * (1 / b.mass) = a.vx
    rw [hvbx, hvax, ← hm]
    field_simp
    ring
  · rw [hres]
    show b.vy + -(1 + 1) * -(2 * s) / (1 / a.mass + 1 / b.mass) *
      ((b.y - a.y) / d0) * (1 / b.mass) = a.vy
    rw [hvby, hvay, ← hm]
    field_simp
    ring

def ballEA : Ball :=
  { defaultBall with
    x := 100, y := 100, vx := 50, vy := 0, radius := 10, mass := 100,
    restitution := 1, friction := 1/2, active := true }

def ballEB : Ball :=
  { defaultBall with
    x := 110, y := 100, vx := -50, vy := 0, radius := 10, mass := 100,
    restitution := 1, friction := 1/2, active := true }

theorem elastic_exchange_witness :
    ballEA.vx = 50 * ((ballEB.x - ballEA.x) / 10) ∧
    ((pairStep sqrtOracle100 ballEA ballEB).1.vx = ballEB.vx ∧
     (pairStep sqrtOracle100 ballEA ballEB).1.vy = ballEB.vy ∧
     (pairStep sqrtOracle100 ballEA ballEB).2.vx = ballEA.vx ∧
     (pairStep sqrtOracle100 ballEA ballEB).2.vy = ballEA.vy) :=
  ⟨by norm_num [ballEA, ballEB, defaultBall],
   elastic_exchange sqrtOracle100 ballEA ballEB 10 50
     (by norm_num [ballEA, defaultBall])
     (by norm_num [ballEB, defaultBall])
     (by norm_num [ballEA, ballEB, defaultBall])
     (by norm_num [ballEA, defaultBall])
     (by norm_num [ballEA, ballEB, defaultBall])
     (by norm_num [ballEA, defaultBall])
     (by norm_num [ballEA, defaultBall])
     (by norm_num [ballEB, defaultBall])
     (by norm_num [ballEA, ballEB, defaultBall, sqrtSafe, sqrtOracle100])
     (by norm_num [ballEA, ballEB, defaultBall])
     (by norm_num)
     (by norm_num [ballEA, ballEB, defaultBall])
     (by norm_num)
     (by norm_num [ballEA, ballEB, defaultBall])
     (by norm_num [ballEA, ballEB, defaultBall])
     (by norm_num [ballEA, ballEB, defaultBall])
     (by norm_num [ballEA, ballEB, defaultBall])
     (by norm_num [ballEA, ballEB, defaultBall, FLOOR_Y])⟩

def slowBallA : Ball :=
  { defaultBall with
    x := 100, y := 410, vx := 1, vy := 0, radius := 10, mass := 100,
    restitution := 1, friction := 1/2, active := true }

def slowBallB : Ball :=
  { defaultBall with
    x := 110, y := 410, vx := -1, vy := 0, radius := 10, mass := 100,
    restitution := 1, friction := 1/2, active := true }

theorem elastic_exchange_counterexample :
    slowBallA.radius = slowBallB.radius ∧
    slowBallA.mass = slowBallB.mass ∧
    slowBallA.restitution = 1 ∧
    slowBallB.restitution = 1 ∧
    slowBallB.vx = -slowBallA.vx ∧
    slowBallB.vy = -slowBallA.vy ∧
    slowBallA.vy = 0 ∧
    slowBallB.y = slowBallA.y ∧
    (slowBallB.x - slowBallA.x) * (slowBallB.x - slowBallA.x) +
      (slowBallB.y - slowBallA.y) * (slowBallB.y - slowBallA.y) <
      (slowBallA.radius + slowBallB.radius) * (slowBallA.radius + slowBallB.radius) ∧
    (pairStep sqrtOracle100 slowBallA slowBallB).1.vx = 0 ∧
    (pairStep sqrtOracle100 slowBallA slowBallB).2.vx = 0 ∧
    (pairStep sqrtOracle100 slowBallA slowBallB).1.vx ≠ slowBallB.vx := by
  refine ⟨?_, ?_, ?_, ?_, ?_, ?_, ?_, ?_, ?_, ?_, ?_, ?_⟩ <;>
    norm_num [pairStep, contactGeom, degenFix, sqrtSafe, sqrtOracle100, corrOf,
      COLLISION_SLOP, POSITION_CORRECT_PCT, invSumOf, posCorrect, resolveVelocity,
      applyNormalImpulse, frictionImpulse, applyTangentImpulse, restingGuard,
      snapVx, snapVy, FLOOR_Y, slowBallA, slowBallB, defaultBall, abs]

end BallScene
